import Mathlib

/-!
Verification of the reminder scheduling engine of the one-life-manager
repository (src/src/services/WebDashboardService.ts, SchedulerService, with
its entry source in src/src/services/TimetableParser.ts).

Shallow embedding conventions:
* Instants are integers counting minutes (the code compares times with
  moment's minute granularity: isBefore, isSameOrBefore(..., 'minute'),
  isBetween(..., 'minute', '[]'), subtract(minutes)).
* JavaScript strings are modelled as Lean String / List Char; the string
  operations used by the code (substring, replace(/\s+/g,''), toLowerCase,
  includes, split, trim, global replace) are given executable List Char
  models below, faithful for the ASCII range the code manipulates.
* The Map<string, ScheduledReminder> registry is an association list with
  JavaScript-Map lookup/overwrite semantics.
* The node-cron task handle of a reminder is modelled by an optional
  TimerTask record carrying its running flag and the bound fire instant
  (the code builds a cron expression denoting exactly that instant).
* The transport call (whatsappService.sendMessage) is an external
  collaborator: each activation consumes an oracle SendOutcome saying
  whether the call returned success, returned failure, or threw.
* Every transport call is logged as a (fingerprint, success?) pair so that
  send counts can be stated per fingerprint.
-/

/-! ## JavaScript character and string primitives -/

/-- Whitespace test modelling the regexp class \s on the characters the
timetable data uses. -/
def jsIsSpace (c : Char) : Bool :=
  c == ' ' || c == '\t' || c == '\n' || c == '\r' || c == '\x0b' || c == '\x0c'

/-- Explicit ASCII upper/lower case table. -/
def lowerPairs : List (Char × Char) :=
  [('A', 'a'), ('B', 'b'), ('C', 'c'), ('D', 'd'), ('E', 'e'), ('F', 'f'),
   ('G', 'g'), ('H', 'h'), ('I', 'i'), ('J', 'j'), ('K', 'k'), ('L', 'l'),
   ('M', 'm'), ('N', 'n'), ('O', 'o'), ('P', 'p'), ('Q', 'q'), ('R', 'r'),
   ('S', 's'), ('T', 't'), ('U', 'u'), ('V', 'v'), ('W', 'w'), ('X', 'x'),
   ('Y', 'y'), ('Z', 'z')]

/-- Table-driven single-character lowering. -/
def lowerAux : List (Char × Char) → Char → Char
  | [], c => c
  | (a, b) :: rest, c => if c = a then b else lowerAux rest c

/-- Model of String.prototype.toLowerCase on one character (ASCII). -/
def jsToLower (c : Char) : Char := lowerAux lowerPairs c

/-- Model of s.toLowerCase() on a character sequence. -/
def jsLowerChars (l : List Char) : List Char := l.map jsToLower

/-- Model of s.replace(/\s+/g, ''): delete every whitespace character. -/
def stripSpaces (l : List Char) : List Char := l.filter (fun c => !jsIsSpace c)

/-- Model of s.includes(sub): substring containment test. -/
def listIncludes : List Char → List Char → Bool
  | [], sub => sub.isEmpty
  | c :: rest, sub => sub.isPrefixOf (c :: rest) || listIncludes rest sub

/-- Model of s.trim(): drop whitespace from both ends. -/
def jsTrim (l : List Char) : List Char :=
  ((l.dropWhile jsIsSpace).reverse.dropWhile jsIsSpace).reverse

/-- Splitting on a separator character, as in s.split(':'). -/
def splitOnCharAux (sep : Char) (acc : List Char) : List Char → List (List Char)
  | [] => [acc.reverse]
  | c :: rest =>
    if c == sep then acc.reverse :: splitOnCharAux sep [] rest
    else splitOnCharAux sep (c :: acc) rest

/-- Model of s.split(sep) for a one-character separator. -/
def splitOnChar (sep : Char) (l : List Char) : List (List Char) :=
  splitOnCharAux sep [] l

/-- Fuel-driven scanner for global literal replacement; the fuel is the
input length, which suffices because every step consumes at least one
input character. -/
def replaceFuel (pat rep : List Char) : Nat → List Char → List Char
  | 0, l => l
  | _ + 1, [] => []
  | n + 1, c :: rest =>
    if pat.isPrefixOf (c :: rest) then
      rep ++ replaceFuel pat rep n ((c :: rest).drop pat.length)
    else c :: replaceFuel pat rep n rest

/-- Model of s.replace(/pat/g, rep) for a non-empty literal pattern:
left-to-right, non-overlapping global replacement. -/
def replaceAll (pat rep l : List Char) : List Char :=
  if pat.isEmpty then l else replaceFuel pat rep l.length l

/-! ## Data model (src/src/index.ts and WebDashboardService.ts) -/

/-- TimetableEntry (src/src/index.ts): one planned activity occurrence.
startTime and endTime are minute instants; the unused optional dayOfWeek
field is omitted. -/
structure TimetableEntry where
  timeSlot : String
  activity : String
  startTime : Int
  endTime : Int
  deriving DecidableEq, Repr

/-- ReminderConfig (src/src/index.ts): lead minutes and optional template. -/
structure ReminderConfig where
  minutesBefore : Int
  message : Option String
  deriving DecidableEq, Repr

/-- A node-cron task handle: whether it is running, and the fire instant
its cron expression denotes (createCronExpression encodes exactly the
minute/hour/day/month of that instant). -/
structure TimerTask where
  active : Bool
  fireAt : Int
  deriving DecidableEq, Repr

/-- ScheduledReminder (WebDashboardService.ts line 831): the registry
record. The cronExpression string is represented inside the task handle. -/
structure ScheduledReminder where
  id : String
  entry : TimetableEntry
  reminderTime : Int
  sent : Bool
  task : Option TimerTask
  deriving DecidableEq, Repr

/-- Outcome of one transport call: sendMessage resolved with
success:true, resolved with success:false, or threw / rejected. -/
inductive SendOutcome
  | success
  | failure
  | thrown
  deriving DecidableEq, Repr

/-! ## The reminder registry: Map<string, ScheduledReminder> -/

/-- scheduledReminders, a JavaScript Map keyed by reminder id. -/
abbrev Registry := List (String × ScheduledReminder)

/-- Map.get: first (unique) binding of the key. -/
def regGet (st : Registry) (k : String) : Option ScheduledReminder :=
  (st.find? (fun p => p.1 == k)).map (fun p => p.2)

/-- Map.set: overwrite the binding of the key. -/
def regSet (st : Registry) (k : String) (v : ScheduledReminder) : Registry :=
  st.filter (fun p => p.1 != k) ++ [(k, v)]

/-- Map.size, as reported by getRemindersCount. -/
def regCount (st : Registry) : Nat := st.length

/-- Truthiness of existingReminder?.sent: the registry shows the
fingerprint as already sent. -/
def isSentReg (st : Registry) (k : String) : Bool :=
  match regGet st k with
  | some r => r.sent
  | none => false

/-- Whether a task handle exists and is running. -/
def taskLive : Option TimerTask → Bool
  | some t => t.active
  | none => false

/-- Whether the fingerprint currently owns a live (running) cron task. -/
def timerEnabled (st : Registry) (k : String) : Bool :=
  match regGet st k with
  | some r => taskLive r.task
  | none => false

/-- task.stop(): a present handle becomes non-running. -/
def stopTask : Option TimerTask → Option TimerTask
  | none => none
  | some t => some { t with active := false }

/-! ## Fingerprints (generateReminderId, lines 1136-1141) -/

/-- Normalization applied to each fingerprint component:
replace(/\s+/g, '') then toLowerCase(). -/
def normChars (l : List Char) : List Char := jsLowerChars (stripSpaces l)

/-- generateReminderId: normalized time slot, a dash, and the normalized
first twenty characters (substring(0, 20)) of the activity. -/
def generateReminderId (e : TimetableEntry) : String :=
  String.mk (normChars e.timeSlot.data ++ ('-' :: normChars (e.activity.data.take 20)))

/-! ## Primary registration (scheduleReminder, lines 940-973) -/

/-- The record inserted by scheduleReminder: sent is false and a running
cron task bound to the fire instant is attached. -/
def scheduledRecord (e : TimetableEntry) (rt : Int) : ScheduledReminder :=
  { id := generateReminderId e
    entry := e
    reminderTime := rt
    sent := false
    task := some { active := true, fireAt := rt } }

/-- scheduleReminder: compute reminderTime = startTime - minutesBefore;
if it isBefore(now), skip; otherwise create the cron task and insert the
record. -/
def scheduleReminder (m now : Int) (st : Registry) (e : TimetableEntry) : Registry :=
  let rt := e.startTime - m
  if rt < now then st
  else regSet st (generateReminderId e) (scheduledRecord e rt)

/-- The scheduling loop of loadTodaySchedule over today's entries. -/
def scheduleAll (m now : Int) (st : Registry) (es : List TimetableEntry) : Registry :=
  es.foldl (scheduleReminder m now) st

/-- scheduleReminder with a fault oracle for cron.schedule: the result is
none when timer creation for the entry throws.  The throw can only happen
after the past-due check, which returns first. -/
def scheduleReminderT (m now : Int) (timerOk : TimetableEntry → Bool) (st : Registry)
    (e : TimetableEntry) : Option Registry :=
  let rt := e.startTime - m
  if rt < now then some st
  else if timerOk e then some (regSet st (generateReminderId e) (scheduledRecord e rt))
  else none

/-- The scheduling loop under the fault oracle.  loadTodaySchedule wraps
the whole loop in one try/catch, so the first throw ends the loop and the
partially built registry is kept; the Bool records whether a throw was
caught. -/
def scheduleAllT (m now : Int) (timerOk : TimetableEntry → Bool) (st : Registry) :
    List TimetableEntry → Registry × Bool
  | [] => (st, false)
  | e :: es =>
    match scheduleReminderT m now timerOk st e with
    | some st2 => scheduleAllT m now timerOk st2 es
    | none => (st, true)

/-! ## Daily rollover (loadTodaySchedule 921-938, clearScheduledReminders 1143-1150) -/

/-- The final states of the record objects dropped by
clearScheduledReminders: each live task handle is stopped. -/
def stopAllRecords (st : Registry) : List (String × ScheduledReminder) :=
  st.map (fun p => (p.1, { p.2 with task := stopTask p.2.task }))

/-- clearScheduledReminders: stop every task, then empty the map.  The
second component is the ghost list of the dropped, stopped records. -/
def clearScheduledReminders (st : Registry) : Registry × List (String × ScheduledReminder) :=
  ([], stopAllRecords st)

/-- loadTodaySchedule without timer faults: clear the registry, then
schedule each of today's entries in order. -/
def loadTodaySchedule (m now : Int) (st : Registry) (es : List TimetableEntry) :
    Registry × List (String × ScheduledReminder) :=
  let c := clearScheduledReminders st
  (scheduleAll m now c.1 es, c.2)

/-- The entry whose record ends up at a fingerprint after the scheduling
loop: the last non-past-due entry of the list with that fingerprint. -/
def lastQual (m now : Int) (k : String) : List TimetableEntry → Option TimetableEntry
  | [] => none
  | e :: es =>
    match lastQual m now k es with
    | some e2 => some e2
    | none =>
      if now ≤ e.startTime - m ∧ generateReminderId e = k then some e else none

/-! ## Timer activation (sendReminder, lines 975-998) -/

/-- sendReminder: the cron callback for the record at fingerprint k.
If the record is already sent, return.  Otherwise format and send; on
success set sent to true; stop the task after a returned outcome; a
thrown transport error is caught before the task is stopped.  The log
records the transport call as (fingerprint, success?). -/
def sendReminder (st : Registry) (k : String) (o : SendOutcome) :
    Registry × List (String × Bool) :=
  match regGet st k with
  | none => (st, [])
  | some r =>
    if r.sent then (st, [])
    else
      match o with
      | .success => (regSet st k { r with sent := true, task := stopTask r.task }, [(k, true)])
      | .failure => (regSet st k { r with task := stopTask r.task }, [(k, false)])
      | .thrown => (st, [(k, false)])

/-! ## Sweep fallback (startImmediateReminderCheck 1071-1091, sendImmediateReminder 1093-1124) -/

/-- The synthetic record inserted by a successful sweep send:
reminderTime is the wall clock at send time, no cron task. -/
def immediateRecord (k : String) (e : TimetableEntry) (now : Int) : ScheduledReminder :=
  { id := k, entry := e, reminderTime := now, sent := true, task := none }

/-- sendImmediateReminder: return if the registry already shows the
fingerprint as sent; otherwise send, and only on success insert the
synthetic sent record. -/
def sendImmediateReminder (st : Registry) (now : Int) (e : TimetableEntry) (o : SendOutcome) :
    Registry × List (String × Bool) :=
  let k := generateReminderId e
  if isSentReg st k then (st, [])
  else
    match o with
    | .success => (regSet st k (immediateRecord k e now), [(k, true)])
    | .failure => (st, [(k, false)])
    | .thrown => (st, [(k, false)])

/-- One entry of the sweep loop: proceed when no record exists or the
record is sent; then, if reminderTime isSameOrBefore now (minute
granularity), call sendImmediateReminder. -/
def sweepEntryStep (m now : Int) (oracle : TimetableEntry → SendOutcome)
    (acc : Registry × List (String × Bool)) (e : TimetableEntry) :
    Registry × List (String × Bool) :=
  let k := generateReminderId e
  let proceed : Bool :=
    match regGet acc.1 k with
    | none => true
    | some r => r.sent
  if proceed then
    if e.startTime - m ≤ now then
      let r := sendImmediateReminder acc.1 now e (oracle e)
      (r.1, acc.2 ++ r.2)
    else acc
  else acc

/-- getUpcomingEntries (TimetableParser.ts 117-126): today's entries whose
start lies in the inclusive window [now, now + minutesAhead]. -/
def upcomingEntries (m now : Int) (entries : List TimetableEntry) : List TimetableEntry :=
  entries.filter (fun e => decide (now ≤ e.startTime) && decide (e.startTime ≤ now + m))

/-- One tick of the sweep interval: iterate the sweep body over the
look-ahead query result. -/
def sweepTick (m now : Int) (oracle : TimetableEntry → SendOutcome)
    (entries : List TimetableEntry) (st : Registry) :
    Registry × List (String × Bool) :=
  (upcomingEntries m now entries).foldl (sweepEntryStep m now oracle) (st, [])

/-! ## Interleavings of timer activations and sweep ticks

Each cron callback closes over the ScheduledReminder object captured at
scheduling time.  While that object is still the Map entry at its
fingerprint, mutating it through the callback is mutating the registry,
so such an activation is resolved by looking the record up at its key.
But Map.set in scheduleReminder silently overwrites a colliding
fingerprint with a fresh object without stopping the old record's cron
task: the old record is detached from the registry while its timer keeps
running.  When that leaked task fires, its callback reads and mutates
only the detached object — the registry is untouched — and since the
date-specific cron expression matches once per day and the object is
unreachable afterwards, its own sent/task mutations have no further
effect.  The two cases are therefore modelled by two event shapes. -/

/-- The record object detached by the Map.set overwrite a registration
performs when a record already sits at the entry's fingerprint.  Map.set
does not stop the old record's task, so the leaked record keeps whatever
running timer it had. -/
def overwrittenRecord (m now : Int) (st : Registry) (e : TimetableEntry) :
    Option ScheduledReminder :=
  if e.startTime - m < now then none else regGet st (generateReminderId e)

/-- sendReminder running on a record object that is no longer the
registry entry for its fingerprint: the guard, transport call and
mutations all act on the detached object, so the registry is unchanged
whatever the outcome; the call is still logged under the reminder's
fingerprint. -/
def sendReminderDetached (st : Registry) (r : ScheduledReminder) (o : SendOutcome) :
    Registry × List (String × Bool) :=
  if r.sent then (st, [])
  else
    match o with
    | .success => (st, [(generateReminderId r.entry, true)])
    | .failure => (st, [(generateReminderId r.entry, false)])
    | .thrown => (st, [(generateReminderId r.entry, false)])

/-- An atomic activation of the engine within one day: the cron timer of
the current registry record at a fingerprint fires, the still-running
cron timer of a record detached by a colliding overwrite fires, or the
one-minute sweep interval ticks. -/
inductive SchedEvent
  | timerFire (k : String) (o : SendOutcome)
  | leakedFire (r : ScheduledReminder) (o : SendOutcome)
  | sweepTickEv (oracle : TimetableEntry → SendOutcome)

/-- Whether an event is the firing of a leaked (detached) timer. -/
def isLeaked : SchedEvent → Bool
  | .leakedFire _ _ => true
  | _ => false

/-- Contribution of one event to the number of leaked-timer activations
for a fingerprint. -/
def leakedCount1 (k : String) : SchedEvent → Nat
  | .leakedFire r _ => if generateReminderId r.entry = k then 1 else 0
  | _ => 0

/-- Number of leaked-timer activations for a fingerprint in a trace. -/
def leakedCount (k : String) : List SchedEvent → Nat
  | [] => 0
  | ev :: evs => leakedCount1 k ev + leakedCount k evs

/-- Effect of one event on the registry, with its transport-call log. -/
def stepEvent (m now : Int) (entries : List TimetableEntry) (st : Registry) :
    SchedEvent → Registry × List (String × Bool)
  | .timerFire k o => sendReminder st k o
  | .leakedFire r o => sendReminderDetached st r o
  | .sweepTickEv oracle => sweepTick m now oracle entries st

/-- Run a sequence of events, concatenating the transport-call logs. -/
def runEvents (m now : Int) (entries : List TimetableEntry) (st : Registry) :
    List SchedEvent → Registry × List (String × Bool)
  | [] => (st, [])
  | ev :: evs =>
    let r := stepEvent m now entries st ev
    let rest := runEvents m now entries r.1 evs
    (rest.1, r.2 ++ rest.2)

/-- Trace validity: a cron task only fires while it is running (node-cron
stopped tasks do not fire) — for an attached activation that is the
current registry record's task, for a leaked activation the detached
record's own task. -/
def validEvents (m now : Int) (entries : List TimetableEntry) :
    Registry → List SchedEvent → Prop
  | _, [] => True
  | st, ev :: evs =>
    (match ev with
     | .timerFire k _ => timerEnabled st k = true
     | .leakedFire r _ => taskLive r.task = true
     | .sweepTickEv _ => True) ∧
    validEvents m now entries (stepEvent m now entries st ev).1 evs

/-- Number of transport calls recorded for a fingerprint. -/
def attemptCount (log : List (String × Bool)) (k : String) : Nat :=
  (log.filter (fun p => p.1 == k)).length

/-- Number of successful transport calls recorded for a fingerprint. -/
def succCount (log : List (String × Bool)) (k : String) : Nat :=
  (log.filter (fun p => p.1 == k && p.2)).length

/-! ## Message formatter (formatReminderMessage, lines 1000-1069) -/

/-- Wrapper giving global literal replacement on Lean strings. -/
def jsReplaceStr (s pat rep : String) : String :=
  String.mk (replaceAll pat.data rep.data s.data)

/-- Two-digit minute field of the moment format h:mm A. -/
def pad2 (n : Int) : String := if n < 10 then "0" ++ toString n else toString n

/-- Model of moment(date).format('h:mm A') on a minute instant. -/
def formatTime12h (t : Int) : String :=
  let md := t % 1440
  let h24 := md / 60
  let mm := md % 60
  let h12 := if h24 % 12 = 0 then (12 : Int) else h24 % 12
  toString h12 ++ ":" ++ pad2 mm ++ (if h24 < 12 then " AM" else " PM")

def pSubject : String := "{subject}"

def pType : String := "{type}"

def pLocation : String := "{location}"

def pMinutesBefore : String := "{minutesBefore}"

def pTime : String := "{time}"

def pActivity : String := "{activity}"

def kwPrayer : String := "prayer"

def kwGym : String := "gym"

def kwHome : String := "home"

def kwOffice : String := "office"

def kwWork : String := "work"

def kwRead : String := "read"

def kwQuran : String := "quran"

def kwWalk : String := "walk"

def kwFamily : String := "family"

def kwMeet : String := "meet"

def kwCoffee : String := "coffee"

def kwRest : String := "rest"

def kwSleep : String := "sleep"

def scheduledLocationDefault : String := "Scheduled Location"

/-- subject = parts[0]?.trim() || activity, inside the colon branch. -/
def subjectOf (activity : List Char) : String :=
  if activity.contains ':' then
    let p0 := jsTrim ((splitOnChar ':' activity).headD [])
    if p0.isEmpty then String.mk activity else String.mk p0
  else String.mk activity

/-- Location extracted from parts[1] of the colon split, when present and
non-empty. -/
def locationFromDescription (activity : List Char) : String :=
  if activity.contains ':' then
    match splitOnChar ':' activity with
    | _ :: p1 :: _ =>
      if p1.isEmpty then scheduledLocationDefault
      else
        let d := jsLowerChars (jsTrim p1)
        if listIncludes d kwGym.data then "GYM"
        else if listIncludes d kwHome.data then "Home"
        else if listIncludes d kwOffice.data then "Office"
        else scheduledLocationDefault
    | _ => scheduledLocationDefault
  else scheduledLocationDefault

/-- The keyword chain on activity.toLowerCase(): each branch overwrites
both type and location; otherwise type stays Activity and the
colon-derived location stands. -/
def typeAndLocation (activity : List Char) (locColon : String) : String × String :=
  let al := jsLowerChars activity
  if listIncludes al kwPrayer.data then ("Prayer", "Home")
  else if listIncludes al kwGym.data then ("Exercise", "GYM")
  else if listIncludes al kwWork.data || listIncludes al kwOffice.data then ("Work", "Office")
  else if listIncludes al kwRead.data || listIncludes al kwQuran.data then ("Study", "Home")
  else if listIncludes al kwWalk.data then ("Exercise", "Outdoor")
  else if listIncludes al kwFamily.data then ("Personal", "Home")
  else if listIncludes al kwMeet.data || listIncludes al kwCoffee.data then ("Social", "Meeting Place")
  else if listIncludes al kwRest.data || listIncludes al kwSleep.data then ("Rest", "Home")
  else ("Activity", locColon)

def dm1 : String := "🔔 REMINDER: Your \""

def dm2 : String := "\" is starting in "

def dm3 : String := " minutes at "

def dm4 : String := ".\n\n⏰ Time Slot: "

def dm5 : String := "\n📝 Activity: "

def dm6 : String := "\n\nHave a productive session! 💪"

/-- The default multi-line layout used when no template is configured. -/
def defaultReminderMessage (m : Int) (e : TimetableEntry) : String :=
  dm1 ++ e.activity ++ dm2 ++ toString m ++ dm3 ++ formatTime12h e.startTime ++
    dm4 ++ e.timeSlot ++ dm5 ++ e.activity ++ dm6

/-- formatReminderMessage: with a template, substitute the six recognized
placeholders from the heuristic categorization; without one, emit the
default layout. -/
def formatReminderMessage (cfg : ReminderConfig) (e : TimetableEntry) : String :=
  match cfg.message with
  | some customMessage =>
    let activity := e.activity.data
    let startTime := formatTime12h e.startTime
    let subject := subjectOf activity
    let locColon := locationFromDescription activity
    let tl := typeAndLocation activity locColon
    let s1 := jsReplaceStr customMessage pSubject subject
    let s2 := jsReplaceStr s1 pType tl.1
    let s3 := jsReplaceStr s2 pLocation tl.2
    let s4 := jsReplaceStr s3 pMinutesBefore (toString cfg.minutesBefore)
    let s5 := jsReplaceStr s4 pTime startTime
    jsReplaceStr s5 pActivity e.activity
  | none => defaultReminderMessage cfg.minutesBefore e

/-! ## Registry lemmas -/

theorem find?_filter_ne (st : Registry) (k k' : String) (h : k' ≠ k) :
    (st.filter (fun p => p.1 != k)).find? (fun p => p.1 == k') = st.find? (fun p => p.1 == k') := by
  induction st with
  | nil => rfl
  | cons a st ih =>
    by_cases hak : a.1 = k
    · have h1 : (a.1 != k) = false := by simp [hak]
      have h2 : (a.1 == k') = false := by simp [hak]; exact fun hk => (h hk.symm).elim
      simp [List.filter, List.find?, h1, h2, ih]
    · have h1 : (a.1 != k) = true := by simp [hak]
      by_cases hak' : a.1 = k'
      · have h3 : (k' != k) = true := by simp [h]
        simp [List.filter, List.find?, h1, hak', h3]
      · have h2 : (a.1 == k') = false := by simp [hak']
        simp [List.filter, List.find?, h1, h2, ih]

theorem regGet_regSet_self (st : Registry) (k : String) (v : ScheduledReminder) :
    regGet (regSet st k v) k = some v := by
  unfold regGet regSet
  rw [List.find?_append]
  have h1 : (st.filter (fun p => p.1 != k)).find? (fun p => p.1 == k) = none := by
    rw [List.find?_eq_none]
    intro x hx
    have hx2 := (List.mem_filter.mp hx).2
    simpa using hx2
  simp [h1, List.find?]

theorem regGet_regSet_ne (st : Registry) {k k' : String} (v : ScheduledReminder) (h : k' ≠ k) :
    regGet (regSet st k v) k' = regGet st k' := by
  unfold regGet regSet
  rw [List.find?_append, find?_filter_ne st k k' h]
  have h2 : (List.find? (fun p => p.1 == k') [(k, v)]) = none := by
    have hkk : (k == k') = false := by
      simp
      exact fun hk => (h (Eq.symm hk)).elim
    simp [List.find?, hkk]
  cases hf : st.find? (fun p => p.1 == k') with
  | none => simp [h2]
  | some p => simp

theorem isSentReg_regSet_self (st : Registry) (k : String) (v : ScheduledReminder) :
    isSentReg (regSet st k v) k = v.sent := by
  simp [isSentReg, regGet_regSet_self]

theorem isSentReg_regSet_ne (st : Registry) {k k' : String} (v : ScheduledReminder) (h : k' ≠ k) :
    isSentReg (regSet st k v) k' = isSentReg st k' := by
  simp [isSentReg, regGet_regSet_ne st v h]

/-! ## Count lemmas -/

theorem attemptCount_append (l1 l2 : List (String × Bool)) (k : String) :
    attemptCount (l1 ++ l2) k = attemptCount l1 k + attemptCount l2 k := by
  simp [attemptCount, List.filter_append]

theorem succCount_append (l1 l2 : List (String × Bool)) (k : String) :
    succCount (l1 ++ l2) k = succCount l1 k + succCount l2 k := by
  simp [succCount, List.filter_append]

theorem attemptCount_nil (k : String) : attemptCount [] k = 0 := rfl

theorem succCount_nil (k : String) : succCount [] k = 0 := rfl

theorem attemptCount_single_ne (k' : String) (b : Bool) (k : String) (h : k' ≠ k) :
    attemptCount [(k', b)] k = 0 := by
  have h2 : (k' == k) = false := by simp [h]
  simp [attemptCount, List.filter, h2]

theorem succCount_single_ne (k' : String) (b : Bool) (k : String) (h : k' ≠ k) :
    succCount [(k', b)] k = 0 := by
  have h2 : (k' == k) = false := by simp [h]
  simp [succCount, List.filter, h2]

theorem attemptCount_single_self (k : String) (b : Bool) : attemptCount [(k, b)] k = 1 := by
  simp [attemptCount, List.filter]

theorem succCount_single_self (k : String) (b : Bool) :
    succCount [(k, b)] k = if b then 1 else 0 := by
  cases b <;> simp [succCount, List.filter]

/-! ## Effect lemmas for the timer activation path -/

theorem isSentReg_of_some {st : Registry} {k : String} {r : ScheduledReminder}
    (h : regGet st k = some r) : isSentReg st k = r.sent := by
  simp [isSentReg, h]

theorem isSentReg_of_none {st : Registry} {k : String} (h : regGet st k = none) :
    isSentReg st k = false := by
  simp [isSentReg, h]

theorem sendReminder_of_none {st : Registry} {k : String} (o : SendOutcome)
    (h : regGet st k = none) : sendReminder st k o = (st, []) := by
  simp [sendReminder, h]

theorem sendReminder_of_sent {st : Registry} {k : String} {r : ScheduledReminder} (o : SendOutcome)
    (h : regGet st k = some r) (hs : r.sent = true) : sendReminder st k o = (st, []) := by
  simp [sendReminder, h, hs]

theorem sendReminder_unsent_success {st : Registry} {k : String} {r : ScheduledReminder}
    (h : regGet st k = some r) (hs : r.sent = false) :
    sendReminder st k SendOutcome.success =
      (regSet st k { r with sent := true, task := stopTask r.task }, [(k, true)]) := by
  simp [sendReminder, h, hs]

theorem sendReminder_unsent_failure {st : Registry} {k : String} {r : ScheduledReminder}
    (h : regGet st k = some r) (hs : r.sent = false) :
    sendReminder st k SendOutcome.failure =
      (regSet st k { r with task := stopTask r.task }, [(k, false)]) := by
  simp [sendReminder, h, hs]

theorem sendReminder_unsent_thrown {st : Registry} {k : String} {r : ScheduledReminder}
    (h : regGet st k = some r) (hs : r.sent = false) :
    sendReminder st k SendOutcome.thrown = (st, [(k, false)]) := by
  simp [sendReminder, h, hs]

theorem sendReminder_other (st : Registry) (k : String) (o : SendOutcome) (k' : String)
    (h : k' ≠ k) :
    regGet (sendReminder st k o).1 k' = regGet st k' ∧
      attemptCount (sendReminder st k o).2 k' = 0 ∧
      succCount (sendReminder st k o).2 k' = 0 := by
  cases hget : regGet st k with
  | none => simp [sendReminder_of_none o hget, attemptCount_nil, succCount_nil]
  | some r =>
    cases hs : r.sent with
    | true => simp [sendReminder_of_sent o hget hs, attemptCount_nil, succCount_nil]
    | false =>
      cases o with
      | success =>
        simp [sendReminder_unsent_success hget hs, regGet_regSet_ne st _ h,
          attemptCount_single_ne _ _ _ (Ne.symm h), succCount_single_ne _ _ _ (Ne.symm h)]
      | failure =>
        simp [sendReminder_unsent_failure hget hs, regGet_regSet_ne st _ h,
          attemptCount_single_ne _ _ _ (Ne.symm h), succCount_single_ne _ _ _ (Ne.symm h)]
      | thrown =>
        simp [sendReminder_unsent_thrown hget hs,
          attemptCount_single_ne _ _ _ (Ne.symm h), succCount_single_ne _ _ _ (Ne.symm h)]

theorem sendReminder_succ_le (st : Registry) (k : String) (o : SendOutcome) :
    succCount (sendReminder st k o).2 k ≤ 1 := by
  cases hget : regGet st k with
  | none => simp [sendReminder_of_none o hget, succCount_nil]
  | some r =>
    cases hs : r.sent with
    | true => simp [sendReminder_of_sent o hget hs, succCount_nil]
    | false =>
      cases o with
      | success => simp [sendReminder_unsent_success hget hs, succCount_single_self]
      | failure => simp [sendReminder_unsent_failure hget hs, succCount_single_self]
      | thrown => simp [sendReminder_unsent_thrown hget hs, succCount_single_self]

theorem sendReminder_succ_zero (st : Registry) (k : String) (o : SendOutcome)
    (h : succCount (sendReminder st k o).2 k = 0) :
    isSentReg (sendReminder st k o).1 k = isSentReg st k := by
  cases hget : regGet st k with
  | none => simp [sendReminder_of_none o hget]
  | some r =>
    cases hs : r.sent with
    | true => simp [sendReminder_of_sent o hget hs]
    | false =>
      cases o with
      | success =>
        rw [sendReminder_unsent_success hget hs] at h
        simp [succCount_single_self] at h
      | failure =>
        rw [sendReminder_unsent_failure hget hs]
        simp [isSentReg_regSet_self, isSentReg_of_some hget, hs]
      | thrown =>
        rw [sendReminder_unsent_thrown hget hs]

theorem sendReminder_succ_pos (st : Registry) (k : String) (o : SendOutcome)
    (h : 1 ≤ succCount (sendReminder st k o).2 k) :
    isSentReg (sendReminder st k o).1 k = true := by
  cases hget : regGet st k with
  | none => rw [sendReminder_of_none o hget] at h; simp [succCount_nil] at h
  | some r =>
    cases hs : r.sent with
    | true => rw [sendReminder_of_sent o hget hs] at h; simp [succCount_nil] at h
    | false =>
      cases o with
      | success =>
        rw [sendReminder_unsent_success hget hs]
        simp [isSentReg_regSet_self]
      | failure =>
        rw [sendReminder_unsent_failure hget hs] at h
        simp [succCount_single_self] at h
      | thrown =>
        rw [sendReminder_unsent_thrown hget hs] at h
        simp [succCount_single_self] at h

/-! ## Effect lemmas for the sweep send path -/

theorem sendImmediateReminder_of_sent {st : Registry} {e : TimetableEntry} (now : Int)
    (o : SendOutcome) (h : isSentReg st (generateReminderId e) = true) :
    sendImmediateReminder st now e o = (st, []) := by
  simp [sendImmediateReminder, h]

theorem sendImmediateReminder_unsent_success {st : Registry} {e : TimetableEntry} (now : Int)
    (h : isSentReg st (generateReminderId e) = false) :
    sendImmediateReminder st now e SendOutcome.success =
      (regSet st (generateReminderId e) (immediateRecord (generateReminderId e) e now),
        [(generateReminderId e, true)]) := by
  simp [sendImmediateReminder, h]

theorem sendImmediateReminder_unsent_failure {st : Registry} {e : TimetableEntry} (now : Int)
    (h : isSentReg st (generateReminderId e) = false) :
    sendImmediateReminder st now e SendOutcome.failure = (st, [(generateReminderId e, false)]) := by
  simp [sendImmediateReminder, h]

theorem sendImmediateReminder_unsent_thrown {st : Registry} {e : TimetableEntry} (now : Int)
    (h : isSentReg st (generateReminderId e) = false) :
    sendImmediateReminder st now e SendOutcome.thrown = (st, [(generateReminderId e, false)]) := by
  simp [sendImmediateReminder, h]

theorem sendImmediateReminder_other (st : Registry) (now : Int) (e : TimetableEntry)
    (o : SendOutcome) (k : String) (h : k ≠ generateReminderId e) :
    regGet (sendImmediateReminder st now e o).1 k = regGet st k ∧
      attemptCount (sendImmediateReminder st now e o).2 k = 0 ∧
      succCount (sendImmediateReminder st now e o).2 k = 0 := by
  cases hb : isSentReg st (generateReminderId e) with
  | true => simp [sendImmediateReminder_of_sent now o hb, attemptCount_nil, succCount_nil]
  | false =>
    cases o with
    | success =>
      simp [sendImmediateReminder_unsent_success now hb, regGet_regSet_ne st _ h,
        attemptCount_single_ne _ _ _ (Ne.symm h), succCount_single_ne _ _ _ (Ne.symm h)]
    | failure =>
      simp [sendImmediateReminder_unsent_failure now hb,
        attemptCount_single_ne _ _ _ (Ne.symm h), succCount_single_ne _ _ _ (Ne.symm h)]
    | thrown =>
      simp [sendImmediateReminder_unsent_thrown now hb,
        attemptCount_single_ne _ _ _ (Ne.symm h), succCount_single_ne _ _ _ (Ne.symm h)]

theorem sendImmediateReminder_succ_le (st : Registry) (now : Int) (e : TimetableEntry)
    (o : SendOutcome) (k : String) :
    succCount (sendImmediateReminder st now e o).2 k ≤ 1 := by
  cases hb : isSentReg st (generateReminderId e) with
  | true => simp [sendImmediateReminder_of_sent now o hb, succCount_nil]
  | false =>
    cases o with
    | success =>
      rw [sendImmediateReminder_unsent_success now hb]
      by_cases hk : generateReminderId e = k
      · subst hk; simp [succCount_single_self]
      · simp [succCount_single_ne _ _ _ hk]
    | failure =>
      rw [sendImmediateReminder_unsent_failure now hb]
      by_cases hk : generateReminderId e = k
      · subst hk; simp [succCount_single_self]
      · simp [succCount_single_ne _ _ _ hk]
    | thrown =>
      rw [sendImmediateReminder_unsent_thrown now hb]
      by_cases hk : generateReminderId e = k
      · subst hk; simp [succCount_single_self]
      · simp [succCount_single_ne _ _ _ hk]

theorem sendImmediateReminder_succ_zero (st : Registry) (now : Int) (e : TimetableEntry)
    (o : SendOutcome) (k : String)
    (h : succCount (sendImmediateReminder st now e o).2 k = 0) :
    isSentReg (sendImmediateReminder st now e o).1 k = isSentReg st k := by
  cases hb : isSentReg st (generateReminderId e) with
  | true => simp [sendImmediateReminder_of_sent now o hb]
  | false =>
    cases o with
    | success =>
      by_cases hk : k = generateReminderId e
      · subst hk
        rw [sendImmediateReminder_unsent_success now hb] at h
        simp [succCount_single_self] at h
      · rw [sendImmediateReminder_unsent_success now hb]
        simp [isSentReg, regGet_regSet_ne st _ hk]
    | failure => rw [sendImmediateReminder_unsent_failure now hb]
    | thrown => rw [sendImmediateReminder_unsent_thrown now hb]

theorem sendImmediateReminder_succ_pos (st : Registry) (now : Int) (e : TimetableEntry)
    (o : SendOutcome) (k : String)
    (h : 1 ≤ succCount (sendImmediateReminder st now e o).2 k) :
    isSentReg (sendImmediateReminder st now e o).1 k = true := by
  cases hb : isSentReg st (generateReminderId e) with
  | true =>
    rw [sendImmediateReminder_of_sent now o hb] at h ⊢
    simp [succCount_nil] at h
  | false =>
    cases o with
    | success =>
      by_cases hk : k = generateReminderId e
      · subst hk
        rw [sendImmediateReminder_unsent_success now hb]
        simp [isSentReg_regSet_self, immediateRecord]
      · rw [sendImmediateReminder_unsent_success now hb] at h
        simp [succCount_single_ne _ _ _ (Ne.symm hk)] at h
    | failure =>
      rw [sendImmediateReminder_unsent_failure now hb] at h
      by_cases hk : k = generateReminderId e
      · subst hk; simp [succCount_single_self] at h
      · simp [succCount_single_ne _ _ _ (Ne.symm hk)] at h
    | thrown =>
      rw [sendImmediateReminder_unsent_thrown now hb] at h
      by_cases hk : k = generateReminderId e
      · subst hk; simp [succCount_single_self] at h
      · simp [succCount_single_ne _ _ _ (Ne.symm hk)] at h

/-! ## Effect lemmas for one sweep-loop entry -/

theorem sweepEntryStep_eq_or (m now : Int) (oracle : TimetableEntry → SendOutcome)
    (acc : Registry × List (String × Bool)) (e : TimetableEntry) :
    sweepEntryStep m now oracle acc e = acc ∨
      sweepEntryStep m now oracle acc e =
        ((sendImmediateReminder acc.1 now e (oracle e)).1,
          acc.2 ++ (sendImmediateReminder acc.1 now e (oracle e)).2) := by
  unfold sweepEntryStep
  dsimp only
  split
  · split
    · right; rfl
    · left; rfl
  · left; rfl

theorem sweepEntryStep_blocked (m now : Int) (oracle : TimetableEntry → SendOutcome)
    (acc : Registry × List (String × Bool)) (e : TimetableEntry) (r : ScheduledReminder)
    (hr : regGet acc.1 (generateReminderId e) = some r) (hs : r.sent = false) :
    sweepEntryStep m now oracle acc e = acc := by
  simp [sweepEntryStep, hr, hs]

theorem sweepEntryStep_present (m now : Int) (oracle : TimetableEntry → SendOutcome)
    (acc : Registry × List (String × Bool)) (e : TimetableEntry) (k : String)
    (hsome : (regGet acc.1 k).isSome = true) :
    regGet (sweepEntryStep m now oracle acc e).1 k = regGet acc.1 k ∧
      attemptCount (sweepEntryStep m now oracle acc e).2 k = attemptCount acc.2 k ∧
      succCount (sweepEntryStep m now oracle acc e).2 k = succCount acc.2 k := by
  by_cases hke : generateReminderId e = k
  · obtain ⟨r, hr⟩ := Option.isSome_iff_exists.mp hsome
    rw [← hke] at hr
    cases hs : r.sent with
    | false => rw [sweepEntryStep_blocked m now oracle acc e r hr hs]; exact ⟨rfl, rfl, rfl⟩
    | true =>
      have hsent : isSentReg acc.1 (generateReminderId e) = true := by
        rw [isSentReg_of_some hr, hs]
      rcases sweepEntryStep_eq_or m now oracle acc e with heq | heq
      · rw [heq]; exact ⟨rfl, rfl, rfl⟩
      · rw [heq, sendImmediateReminder_of_sent now (oracle e) hsent]
        simp [attemptCount_append, succCount_append, attemptCount_nil, succCount_nil]
  · rcases sweepEntryStep_eq_or m now oracle acc e with heq | heq
    · rw [heq]; exact ⟨rfl, rfl, rfl⟩
    · rw [heq]
      obtain ⟨hg, ha, hsc⟩ :=
        sendImmediateReminder_other acc.1 now e (oracle e) k (fun hh => hke (Eq.symm hh))
      refine ⟨hg, ?_, ?_⟩
      · rw [attemptCount_append, ha]
        omega
      · rw [succCount_append, hsc]
        omega


theorem sweepEntryStep_succ_mono (m now : Int) (oracle : TimetableEntry → SendOutcome)
    (acc : Registry × List (String × Bool)) (e : TimetableEntry) (k : String) :
    succCount acc.2 k ≤ succCount (sweepEntryStep m now oracle acc e).2 k := by
  rcases sweepEntryStep_eq_or m now oracle acc e with heq | heq
  · rw [heq]
  · rw [heq, succCount_append]; omega

theorem sweepEntryStep_succ_le (m now : Int) (oracle : TimetableEntry → SendOutcome)
    (acc : Registry × List (String × Bool)) (e : TimetableEntry) (k : String) :
    succCount (sweepEntryStep m now oracle acc e).2 k ≤ succCount acc.2 k + 1 := by
  rcases sweepEntryStep_eq_or m now oracle acc e with heq | heq
  · rw [heq]; omega
  · rw [heq, succCount_append]
    have := sendImmediateReminder_succ_le acc.1 now e (oracle e) k
    omega

theorem sweepEntryStep_succ_eq (m now : Int) (oracle : TimetableEntry → SendOutcome)
    (acc : Registry × List (String × Bool)) (e : TimetableEntry) (k : String)
    (h : succCount (sweepEntryStep m now oracle acc e).2 k = succCount acc.2 k) :
    isSentReg (sweepEntryStep m now oracle acc e).1 k = isSentReg acc.1 k := by
  rcases sweepEntryStep_eq_or m now oracle acc e with heq | heq
  · rw [heq]
  · rw [heq] at h ⊢
    rw [succCount_append] at h
    have hz : succCount (sendImmediateReminder acc.1 now e (oracle e)).2 k = 0 := by omega
    exact sendImmediateReminder_succ_zero acc.1 now e (oracle e) k hz

theorem sweepEntryStep_succ_lt (m now : Int) (oracle : TimetableEntry → SendOutcome)
    (acc : Registry × List (String × Bool)) (e : TimetableEntry) (k : String)
    (h : succCount acc.2 k < succCount (sweepEntryStep m now oracle acc e).2 k) :
    isSentReg (sweepEntryStep m now oracle acc e).1 k = true := by
  rcases sweepEntryStep_eq_or m now oracle acc e with heq | heq
  · rw [heq] at h; omega
  · rw [heq] at h ⊢
    rw [succCount_append] at h
    have hp : 1 ≤ succCount (sendImmediateReminder acc.1 now e (oracle e)).2 k := by omega
    exact sendImmediateReminder_succ_pos acc.1 now e (oracle e) k hp

/-! ## Fold lemmas for a whole sweep tick -/

theorem isSentReg_eq_of_regGet {st st' : Registry} {k : String}
    (h : regGet st k = regGet st' k) : isSentReg st k = isSentReg st' k := by
  simp [isSentReg, h]

theorem isSome_of_isSentReg {st : Registry} {k : String} (h : isSentReg st k = true) :
    (regGet st k).isSome = true := by
  unfold isSentReg at h
  cases hr : regGet st k with
  | none => rw [hr] at h; simp at h
  | some r => simp

theorem sweepFold_present (m now : Int) (oracle : TimetableEntry → SendOutcome) (k : String)
    (es : List TimetableEntry) :
    ∀ acc, (regGet acc.1 k).isSome = true →
      regGet (es.foldl (sweepEntryStep m now oracle) acc).1 k = regGet acc.1 k ∧
        attemptCount (es.foldl (sweepEntryStep m now oracle) acc).2 k = attemptCount acc.2 k ∧
        succCount (es.foldl (sweepEntryStep m now oracle) acc).2 k = succCount acc.2 k := by
  induction es with
  | nil => intro acc h; exact ⟨rfl, rfl, rfl⟩
  | cons e es ih =>
    intro acc h
    rw [List.foldl_cons]
    have hstep := sweepEntryStep_present m now oracle acc e k h
    have h2 : (regGet (sweepEntryStep m now oracle acc e).1 k).isSome = true := by
      rw [hstep.1]; exact h
    obtain ⟨g1, a1, s1⟩ := ih (sweepEntryStep m now oracle acc e) h2
    exact ⟨by rw [g1, hstep.1], by rw [a1, hstep.2.1], by rw [s1, hstep.2.2]⟩

theorem sweepFold_succ_mono (m now : Int) (oracle : TimetableEntry → SendOutcome) (k : String)
    (es : List TimetableEntry) :
    ∀ acc, succCount acc.2 k ≤ succCount (es.foldl (sweepEntryStep m now oracle) acc).2 k := by
  induction es with
  | nil => intro acc; exact Nat.le_refl _
  | cons e es ih =>
    intro acc
    rw [List.foldl_cons]
    exact Nat.le_trans (sweepEntryStep_succ_mono m now oracle acc e k)
      (ih (sweepEntryStep m now oracle acc e))

theorem sweepFold_succ_le (m now : Int) (oracle : TimetableEntry → SendOutcome) (k : String)
    (es : List TimetableEntry) :
    ∀ acc, isSentReg acc.1 k = false →
      succCount (es.foldl (sweepEntryStep m now oracle) acc).2 k ≤ succCount acc.2 k + 1 := by
  induction es with
  | nil => intro acc _; rw [List.foldl_nil]; omega
  | cons e es ih =>
    intro acc hfalse
    rw [List.foldl_cons]
    have hle := sweepEntryStep_succ_le m now oracle acc e k
    have hmono := sweepEntryStep_succ_mono m now oracle acc e k
    rcases Nat.lt_or_ge (succCount acc.2 k) (succCount (sweepEntryStep m now oracle acc e).2 k)
      with hlt | hge
    · have hsent := sweepEntryStep_succ_lt m now oracle acc e k hlt
      have hpres := sweepFold_present m now oracle k es (sweepEntryStep m now oracle acc e)
        (isSome_of_isSentReg hsent)
      omega
    · have heq : succCount (sweepEntryStep m now oracle acc e).2 k = succCount acc.2 k := by omega
      have hsent := sweepEntryStep_succ_eq m now oracle acc e k heq
      have := ih (sweepEntryStep m now oracle acc e) (by rw [hsent]; exact hfalse)
      omega

theorem sweepFold_succ_eq (m now : Int) (oracle : TimetableEntry → SendOutcome) (k : String)
    (es : List TimetableEntry) :
    ∀ acc, succCount (es.foldl (sweepEntryStep m now oracle) acc).2 k = succCount acc.2 k →
      isSentReg (es.foldl (sweepEntryStep m now oracle) acc).1 k = isSentReg acc.1 k := by
  induction es with
  | nil => intro acc _; rfl
  | cons e es ih =>
    intro acc h
    rw [List.foldl_cons] at h ⊢
    have hmono1 := sweepEntryStep_succ_mono m now oracle acc e k
    have hmono2 := sweepFold_succ_mono m now oracle k es (sweepEntryStep m now oracle acc e)
    have heq1 : succCount (sweepEntryStep m now oracle acc e).2 k = succCount acc.2 k := by omega
    have hstep := sweepEntryStep_succ_eq m now oracle acc e k heq1
    have := ih (sweepEntryStep m now oracle acc e) (by omega)
    rw [this, hstep]

theorem sweepFold_succ_lt (m now : Int) (oracle : TimetableEntry → SendOutcome) (k : String)
    (es : List TimetableEntry) :
    ∀ acc, succCount acc.2 k < succCount (es.foldl (sweepEntryStep m now oracle) acc).2 k →
      isSentReg (es.foldl (sweepEntryStep m now oracle) acc).1 k = true := by
  induction es with
  | nil => intro acc h; rw [List.foldl_nil] at h; omega
  | cons e es ih =>
    intro acc h
    rw [List.foldl_cons] at h ⊢
    rcases Nat.lt_or_ge (succCount acc.2 k) (succCount (sweepEntryStep m now oracle acc e).2 k)
      with hlt | hge
    · have hsent := sweepEntryStep_succ_lt m now oracle acc e k hlt
      have hpres := sweepFold_present m now oracle k es (sweepEntryStep m now oracle acc e)
        (isSome_of_isSentReg hsent)
      rw [isSentReg_eq_of_regGet hpres.1, hsent]
    · have hmono := sweepEntryStep_succ_mono m now oracle acc e k
      have heq1 : succCount (sweepEntryStep m now oracle acc e).2 k = succCount acc.2 k := by omega
      exact ih (sweepEntryStep m now oracle acc e) (by omega)

/-! ## Sweep-tick level lemmas -/

theorem sweepTick_present (m now : Int) (oracle : TimetableEntry → SendOutcome)
    (entries : List TimetableEntry) (st : Registry) (k : String)
    (h : (regGet st k).isSome = true) :
    regGet (sweepTick m now oracle entries st).1 k = regGet st k ∧
      attemptCount (sweepTick m now oracle entries st).2 k = 0 ∧
      succCount (sweepTick m now oracle entries st).2 k = 0 := by
  have := sweepFold_present m now oracle k (upcomingEntries m now entries) (st, []) h
  exact this

theorem sweepTick_succ_le (m now : Int) (oracle : TimetableEntry → SendOutcome)
    (entries : List TimetableEntry) (st : Registry) (k : String) :
    succCount (sweepTick m now oracle entries st).2 k ≤ 1 := by
  cases hb : isSentReg st k with
  | true =>
    have := sweepTick_present m now oracle entries st k (isSome_of_isSentReg hb)
    omega
  | false =>
    have := sweepFold_succ_le m now oracle k (upcomingEntries m now entries) (st, []) hb
    simpa [sweepTick, succCount_nil] using this

theorem sweepTick_succ_zero (m now : Int) (oracle : TimetableEntry → SendOutcome)
    (entries : List TimetableEntry) (st : Registry) (k : String)
    (h : succCount (sweepTick m now oracle entries st).2 k = 0) :
    isSentReg (sweepTick m now oracle entries st).1 k = isSentReg st k := by
  exact sweepFold_succ_eq m now oracle k (upcomingEntries m now entries) (st, []) h

theorem sweepTick_succ_pos (m now : Int) (oracle : TimetableEntry → SendOutcome)
    (entries : List TimetableEntry) (st : Registry) (k : String)
    (h : 1 ≤ succCount (sweepTick m now oracle entries st).2 k) :
    isSentReg (sweepTick m now oracle entries st).1 k = true := by
  have h' : 0 < succCount (sweepTick m now oracle entries st).2 k := h
  exact sweepFold_succ_lt m now oracle k (upcomingEntries m now entries) (st, []) h'

/-! ## Event-level lemmas -/

theorem exists_of_isSentReg {st : Registry} {k : String} (h : isSentReg st k = true) :
    ∃ r, regGet st k = some r ∧ r.sent = true := by
  unfold isSentReg at h
  cases hr : regGet st k with
  | none => rw [hr] at h; simp at h
  | some r => rw [hr] at h; exact ⟨r, rfl, h⟩

theorem timerEnabled_eq_of_regGet {st st' : Registry} {k : String}
    (h : regGet st k = regGet st' k) : timerEnabled st k = timerEnabled st' k := by
  simp [timerEnabled, h]

theorem runEvents_nil (m now : Int) (entries : List TimetableEntry) (st : Registry) :
    runEvents m now entries st [] = (st, []) := rfl

theorem runEvents_cons (m now : Int) (entries : List TimetableEntry) (st : Registry)
    (ev : SchedEvent) (evs : List SchedEvent) :
    runEvents m now entries st (ev :: evs) =
      ((runEvents m now entries (stepEvent m now entries st ev).1 evs).1,
        (stepEvent m now entries st ev).2 ++
          (runEvents m now entries (stepEvent m now entries st ev).1 evs).2) := rfl

/-! ## Effect lemmas for leaked (detached) timer activations -/

theorem sendReminderDetached_fst (st : Registry) (r : ScheduledReminder) (o : SendOutcome) :
    (sendReminderDetached st r o).1 = st := by
  unfold sendReminderDetached
  split
  · rfl
  · cases o <;> rfl

theorem sendReminderDetached_succ_le (st : Registry) (r : ScheduledReminder) (o : SendOutcome)
    (k : String) :
    succCount (sendReminderDetached st r o).2 k ≤
      leakedCount1 k (SchedEvent.leakedFire r o) := by
  cases hs : r.sent with
  | true => simp [sendReminderDetached, hs, succCount_nil]
  | false =>
    by_cases hrk : generateReminderId r.entry = k
    · cases o <;> simp [sendReminderDetached, hs, leakedCount1, hrk, succCount_single_self]
    · cases o <;>
        simp [sendReminderDetached, hs, leakedCount1, hrk, succCount_single_ne _ _ _ hrk]

theorem sendReminderDetached_attempt_le (st : Registry) (r : ScheduledReminder)
    (o : SendOutcome) (k : String) :
    attemptCount (sendReminderDetached st r o).2 k ≤
      leakedCount1 k (SchedEvent.leakedFire r o) := by
  cases hs : r.sent with
  | true => simp [sendReminderDetached, hs, attemptCount_nil]
  | false =>
    by_cases hrk : generateReminderId r.entry = k
    · cases o <;> simp [sendReminderDetached, hs, leakedCount1, hrk, attemptCount_single_self]
    · cases o <;>
        simp [sendReminderDetached, hs, leakedCount1, hrk, attemptCount_single_ne _ _ _ hrk]

theorem leakedCount1_le_one (k : String) (ev : SchedEvent) : leakedCount1 k ev ≤ 1 := by
  cases ev with
  | leakedFire r o =>
    by_cases h : generateReminderId r.entry = k <;> simp [leakedCount1, h]
  | timerFire k o => exact Nat.zero_le 1
  | sweepTickEv oracle => exact Nat.zero_le 1

theorem leakedCount_cons (k : String) (ev : SchedEvent) (evs : List SchedEvent) :
    leakedCount k (ev :: evs) = leakedCount1 k ev + leakedCount k evs := rfl

theorem leakedCount1_not_leaked (k : String) (ev : SchedEvent) (hnl : isLeaked ev = false) :
    leakedCount1 k ev = 0 := by
  cases ev with
  | leakedFire r o => simp [isLeaked] at hnl
  | timerFire k o => rfl
  | sweepTickEv oracle => rfl

/-! ## Event-step lemmas -/

theorem stepEvent_succ_le (m now : Int) (entries : List TimetableEntry) (st : Registry)
    (ev : SchedEvent) (k : String) :
    succCount (stepEvent m now entries st ev).2 k ≤ 1 := by
  cases ev with
  | timerFire k' o =>
    by_cases hk : k' = k
    · subst hk; exact sendReminder_succ_le st k' o
    · obtain ⟨_, _, hs⟩ := sendReminder_other st k' o k (fun hh => hk (Eq.symm hh))
      rw [stepEvent, hs]
      omega
  | leakedFire r o =>
    exact Nat.le_trans (sendReminderDetached_succ_le st r o k)
      (leakedCount1_le_one k (SchedEvent.leakedFire r o))
  | sweepTickEv oracle => exact sweepTick_succ_le m now oracle entries st k

theorem stepEvent_sent (m now : Int) (entries : List TimetableEntry) (st : Registry)
    (ev : SchedEvent) (k : String) (hnl : isLeaked ev = false)
    (hb : isSentReg st k = true) :
    succCount (stepEvent m now entries st ev).2 k = 0 ∧
      isSentReg (stepEvent m now entries st ev).1 k = true := by
  cases ev with
  | timerFire k' o =>
    by_cases hk : k' = k
    · subst hk
      obtain ⟨r, hr, hs⟩ := exists_of_isSentReg hb
      rw [stepEvent, sendReminder_of_sent o hr hs]
      exact ⟨rfl, hb⟩
    · obtain ⟨hg, _, hs⟩ := sendReminder_other st k' o k (fun hh => hk (Eq.symm hh))
      refine ⟨hs, ?_⟩
      rw [stepEvent]
      rw [isSentReg_eq_of_regGet hg]
      exact hb
  | leakedFire r o => simp [isLeaked] at hnl
  | sweepTickEv oracle =>
    obtain ⟨hg, _, hs⟩ := sweepTick_present m now oracle entries st k (isSome_of_isSentReg hb)
    refine ⟨hs, ?_⟩
    rw [stepEvent, isSentReg_eq_of_regGet hg]
    exact hb

theorem stepEvent_succ_zero (m now : Int) (entries : List TimetableEntry) (st : Registry)
    (ev : SchedEvent) (k : String)
    (h : succCount (stepEvent m now entries st ev).2 k = 0) :
    isSentReg (stepEvent m now entries st ev).1 k = isSentReg st k := by
  cases ev with
  | timerFire k' o =>
    by_cases hk : k' = k
    · subst hk; exact sendReminder_succ_zero st k' o h
    · obtain ⟨hg, _, _⟩ := sendReminder_other st k' o k (fun hh => hk (Eq.symm hh))
      rw [stepEvent, isSentReg_eq_of_regGet hg]
  | leakedFire r o =>
    have hst := sendReminderDetached_fst st r o
    show isSentReg (sendReminderDetached st r o).1 k = isSentReg st k
    rw [hst]
  | sweepTickEv oracle => exact sweepTick_succ_zero m now oracle entries st k h

theorem stepEvent_succ_pos (m now : Int) (entries : List TimetableEntry) (st : Registry)
    (ev : SchedEvent) (k : String) (hnl : isLeaked ev = false)
    (h : 1 ≤ succCount (stepEvent m now entries st ev).2 k) :
    isSentReg (stepEvent m now entries st ev).1 k = true := by
  cases ev with
  | timerFire k' o =>
    by_cases hk : k' = k
    · subst hk; exact sendReminder_succ_pos st k' o h
    · obtain ⟨_, _, hs⟩ := sendReminder_other st k' o k (fun hh => hk (Eq.symm hh))
      rw [stepEvent] at h
      omega
  | leakedFire r o => simp [isLeaked] at hnl
  | sweepTickEv oracle => exact sweepTick_succ_pos m now oracle entries st k h

theorem runEvents_inv_aux (m now : Int) (entries : List TimetableEntry) (k : String)
    (st : Registry) (ev : SchedEvent) (evs : List SchedEvent) (hnl : isLeaked ev = false)
    (ih1 : succCount (runEvents m now entries (stepEvent m now entries st ev).1 evs).2 k ≤
      (if isSentReg (stepEvent m now entries st ev).1 k then 0 else 1) + leakedCount k evs) :
    succCount (stepEvent m now entries st ev).2 k +
      succCount (runEvents m now entries (stepEvent m now entries st ev).1 evs).2 k ≤
      (if isSentReg st k then 0 else 1) + leakedCount k evs := by
  have h1 := stepEvent_succ_le m now entries st ev k
  cases hb : isSentReg st k with
  | true =>
    obtain ⟨hz, hsent⟩ := stepEvent_sent m now entries st ev k hnl hb
    rw [hsent] at ih1
    simp [hz] at ih1 ⊢
    omega
  | false =>
    rcases Nat.eq_zero_or_pos (succCount (stepEvent m now entries st ev).2 k) with hz | hp
    · have hs := stepEvent_succ_zero m now entries st ev k hz
      rw [hs, hb] at ih1
      simp [hz] at ih1 ⊢
      omega
    · have hs := stepEvent_succ_pos m now entries st ev k hnl hp
      rw [hs] at ih1
      simp at ih1 ⊢
      omega

theorem runEvents_inv (m now : Int) (entries : List TimetableEntry) (k : String)
    (evs : List SchedEvent) :
    ∀ st, succCount (runEvents m now entries st evs).2 k ≤
      (if isSentReg st k then 0 else 1) + leakedCount k evs := by
  induction evs with
  | nil =>
    intro st
    rw [runEvents_nil]
    have h0 : succCount ([] : List (String × Bool)) k = 0 := rfl
    split <;> simp [h0, leakedCount]
  | cons ev evs ih =>
    intro st
    rw [runEvents_cons, succCount_append]
    have ih1 := ih (stepEvent m now entries st ev).1
    cases ev with
    | leakedFire r o =>
      have hse : stepEvent m now entries st (SchedEvent.leakedFire r o) =
          sendReminderDetached st r o := rfl
      have hsucc := sendReminderDetached_succ_le st r o k
      rw [hse, sendReminderDetached_fst st r o] at ih1 ⊢
      rw [leakedCount_cons]
      omega
    | timerFire k' o =>
      rw [leakedCount_cons, leakedCount1_not_leaked k (SchedEvent.timerFire k' o) rfl]
      have := runEvents_inv_aux m now entries k st (SchedEvent.timerFire k' o) evs rfl ih1
      omega
    | sweepTickEv oracle =>
      rw [leakedCount_cons, leakedCount1_not_leaked k (SchedEvent.sweepTickEv oracle) rfl]
      have := runEvents_inv_aux m now entries k st (SchedEvent.sweepTickEv oracle) evs rfl ih1
      omega

/-! ## Blocked-fingerprint runs (failed primary send) -/

theorem validEvents_cons_iff (m now : Int) (entries : List TimetableEntry) (st : Registry)
    (ev : SchedEvent) (evs : List SchedEvent) :
    validEvents m now entries st (ev :: evs) ↔
      (match ev with
       | .timerFire k _ => timerEnabled st k = true
       | .leakedFire r _ => taskLive r.task = true
       | .sweepTickEv _ => True) ∧
      validEvents m now entries (stepEvent m now entries st ev).1 evs := Iff.rfl

theorem stepEvent_blocked (m now : Int) (entries : List TimetableEntry) (st : Registry)
    (ev : SchedEvent) (k : String)
    (hsome : (regGet st k).isSome = true) (htimer : timerEnabled st k = false)
    (hguard : match ev with
      | .timerFire k' _ => timerEnabled st k' = true
      | .leakedFire r _ => taskLive r.task = true
      | .sweepTickEv _ => True) :
    regGet (stepEvent m now entries st ev).1 k = regGet st k ∧
      attemptCount (stepEvent m now entries st ev).2 k ≤ leakedCount1 k ev := by
  cases ev with
  | timerFire k' o =>
    have hk : k' ≠ k := by
      intro hh
      subst hh
      rw [hguard] at htimer
      exact Bool.true_eq_false.mp htimer
    obtain ⟨hg, ha, _⟩ := sendReminder_other st k' o k (Ne.symm hk)
    simp only [stepEvent]
    exact ⟨hg, by simp [ha, leakedCount1]⟩
  | leakedFire r o =>
    simp only [stepEvent]
    exact ⟨by rw [sendReminderDetached_fst st r o],
      sendReminderDetached_attempt_le st r o k⟩
  | sweepTickEv oracle =>
    obtain ⟨hg, ha, _⟩ := sweepTick_present m now oracle entries st k hsome
    simp only [stepEvent]
    exact ⟨hg, by simp [ha, leakedCount1]⟩

theorem runEvents_blocked (m now : Int) (entries : List TimetableEntry) (k : String)
    (evs : List SchedEvent) :
    ∀ st, (regGet st k).isSome = true → timerEnabled st k = false →
      validEvents m now entries st evs →
      attemptCount (runEvents m now entries st evs).2 k ≤ leakedCount k evs ∧
        regGet (runEvents m now entries st evs).1 k = regGet st k := by
  induction evs with
  | nil => intro st _ _ _; exact ⟨Nat.le_refl 0, rfl⟩
  | cons ev evs ih =>
    intro st hsome htimer hv
    obtain ⟨hguard, hrest⟩ := (validEvents_cons_iff m now entries st ev evs).mp hv
    obtain ⟨hg, ha⟩ := stepEvent_blocked m now entries st ev k hsome htimer hguard
    have hsome2 : (regGet (stepEvent m now entries st ev).1 k).isSome = true := by
      rw [hg]; exact hsome
    have htimer2 : timerEnabled (stepEvent m now entries st ev).1 k = false := by
      rw [timerEnabled_eq_of_regGet hg]; exact htimer
    obtain ⟨iha, ihg⟩ := ih (stepEvent m now entries st ev).1 hsome2 htimer2 hrest
    rw [runEvents_cons]
    constructor
    · rw [attemptCount_append, leakedCount_cons]
      omega
    · rw [ihg, hg]

/-! ## Characterization of the scheduling loop -/

theorem scheduleAll_cons (m now : Int) (st : Registry) (e : TimetableEntry)
    (es : List TimetableEntry) :
    scheduleAll m now st (e :: es) = scheduleAll m now (scheduleReminder m now st e) es := rfl

theorem regGet_scheduleAll (m now : Int) (k : String) (es : List TimetableEntry) :
    ∀ st, regGet (scheduleAll m now st es) k =
      (match lastQual m now k es with
       | some e => some (scheduledRecord e (e.startTime - m))
       | none => regGet st k) := by
  induction es with
  | nil => intro st; rfl
  | cons e es ih =>
    intro st
    rw [scheduleAll_cons]
    rw [ih (scheduleReminder m now st e)]
    cases hq : lastQual m now k es with
    | some e2 => simp [lastQual, hq]
    | none =>
      simp only [lastQual, hq]
      by_cases hpast : e.startTime - m < now
      · have hsched : scheduleReminder m now st e = st := by
          simp [scheduleReminder, hpast]
        have hcond : ¬(now ≤ e.startTime - m ∧ generateReminderId e = k) := by
          intro hc
          omega
        rw [hsched, if_neg hcond]
      · have hle : now ≤ e.startTime - m := by omega
        have hsched : scheduleReminder m now st e =
            regSet st (generateReminderId e) (scheduledRecord e (e.startTime - m)) := by
          simp [scheduleReminder, hpast]
        rw [hsched]
        by_cases hke : generateReminderId e = k
        · rw [if_pos ⟨hle, hke⟩, ← hke, regGet_regSet_self]
        · have hcond : ¬(now ≤ e.startTime - m ∧ generateReminderId e = k) := by
            intro hc
            exact hke hc.2
          rw [if_neg hcond, regGet_regSet_ne st _ (fun hh => hke (Eq.symm hh))]

/-! ## The scheduling loop under timer-creation failure -/

theorem scheduleReminderT_ok (m now : Int) (timerOk : TimetableEntry → Bool) (st : Registry)
    (e : TimetableEntry) (h : e.startTime - m < now ∨ timerOk e = true) :
    scheduleReminderT m now timerOk st e = some (scheduleReminder m now st e) := by
  by_cases hpast : e.startTime - m < now
  · simp [scheduleReminderT, scheduleReminder, hpast]
  · have hok : timerOk e = true := by
      rcases h with hp | hok
      · exact absurd hp hpast
      · exact hok
    simp [scheduleReminderT, scheduleReminder, hpast, hok]

theorem scheduleAllT_ok (m now : Int) (timerOk : TimetableEntry → Bool)
    (pre : List TimetableEntry) :
    ∀ st, (∀ e' ∈ pre, e'.startTime - m < now ∨ timerOk e' = true) →
      scheduleAllT m now timerOk st pre = (scheduleAll m now st pre, false) := by
  induction pre with
  | nil => intro st _; rfl
  | cons e pre ih =>
    intro st hall
    have he := hall e (List.mem_cons_self e pre)
    rw [scheduleAllT, scheduleReminderT_ok m now timerOk st e he]
    rw [scheduleAll_cons]
    exact ih (scheduleReminder m now st e) (fun e' he' => hall e' (List.mem_cons_of_mem e he'))

theorem scheduleAllT_abort (m now : Int) (timerOk : TimetableEntry → Bool)
    (e : TimetableEntry) (post : List TimetableEntry)
    (hfire : now ≤ e.startTime - m) (hfail : timerOk e = false)
    (pre : List TimetableEntry) :
    ∀ st, (∀ e' ∈ pre, e'.startTime - m < now ∨ timerOk e' = true) →
      scheduleAllT m now timerOk st (pre ++ e :: post) = (scheduleAll m now st pre, true) := by
  induction pre with
  | nil =>
    intro st _
    have hT : scheduleReminderT m now timerOk st e = none := by
      have hpast : ¬(e.startTime - m < now) := by omega
      simp [scheduleReminderT, hpast, hfail]
    rw [List.nil_append, scheduleAllT, hT]
    rfl
  | cons e' pre ih =>
    intro st hall
    have he' := hall e' (List.mem_cons_self e' pre)
    rw [List.cons_append, scheduleAllT, scheduleReminderT_ok m now timerOk st e' he']
    rw [scheduleAll_cons]
    exact ih (scheduleReminder m now st e') (fun x hx => hall x (List.mem_cons_of_mem e' hx))

/-! ## Fingerprint normalization lemmas -/

theorem jsIsSpace_lowerAux (c : Char) (ps : List (Char × Char))
    (hp : ∀ p ∈ ps, jsIsSpace p.1 = false ∧ jsIsSpace p.2 = false) :
    jsIsSpace (lowerAux ps c) = jsIsSpace c := by
  induction ps with
  | nil => rfl
  | cons p ps ih =>
    obtain ⟨a, b⟩ := p
    simp only [lowerAux]
    by_cases hc : c = a
    · rw [if_pos hc, hc]
      have h1 := hp (a, b) (List.mem_cons_self _ _)
      rw [h1.2, h1.1]
    · rw [if_neg hc]
      exact ih (fun q hq => hp q (List.mem_cons_of_mem _ hq))

theorem jsIsSpace_jsToLower (c : Char) : jsIsSpace (jsToLower c) = jsIsSpace c :=
  jsIsSpace_lowerAux c lowerPairs (by decide)

theorem stripSpaces_lower (l : List Char) : stripSpaces (jsLowerChars l) = normChars l := by
  unfold normChars stripSpaces jsLowerChars
  rw [List.filter_map]
  congr 1
  apply List.filter_congr
  intro c _
  simp [jsIsSpace_jsToLower]

theorem normChars_lower_congr {a b : List Char} (h : jsLowerChars a = jsLowerChars b) :
    normChars a = normChars b := by
  rw [← stripSpaces_lower a, ← stripSpaces_lower b, h]

theorem normChars_take_congr {a b : List Char} (h : jsLowerChars a = jsLowerChars b) :
    normChars (a.take 20) = normChars (b.take 20) := by
  apply normChars_lower_congr
  unfold jsLowerChars at h ⊢
  rw [List.map_take, List.map_take, h]

theorem generateReminderId_eq_iff (e1 e2 : TimetableEntry) (h : e1.timeSlot = e2.timeSlot) :
    generateReminderId e1 = generateReminderId e2 ↔
      normChars (e1.activity.data.take 20) = normChars (e2.activity.data.take 20) := by
  unfold generateReminderId
  rw [h]
  constructor
  · intro hmk
    injection hmk with hdata
    have h2 := List.append_cancel_left hdata
    injection h2
  · intro hp
    rw [hp]

/-! ## Single-entry sweep tick -/

theorem sweepTick_single (m now : Int) (oracle : TimetableEntry → SendOutcome)
    (e : TimetableEntry) (st : Registry)
    (h1 : now ≤ e.startTime) (h2 : e.startTime ≤ now + m) :
    sweepTick m now oracle [e] st = sweepEntryStep m now oracle (st, []) e := by
  unfold sweepTick upcomingEntries
  rw [List.filter_cons]
  simp [h1, h2]

/-! ## Remaining helper lemmas for the claims -/

theorem taskLive_stopTask (x : Option TimerTask) : taskLive (stopTask x) = false := by
  cases x <;> rfl

theorem attempt_timer_any (st : Registry) (k : String) (r : ScheduledReminder) (o : SendOutcome)
    (h : regGet st k = some r) (hs : r.sent = false) :
    attemptCount (sendReminder st k o).2 k = 1 ∧
      (regGet (sendReminder st k o).1 k).isSome = true := by
  cases o with
  | success =>
    rw [sendReminder_unsent_success h hs]
    exact ⟨attemptCount_single_self k true, by simp [regGet_regSet_self]⟩
  | failure =>
    rw [sendReminder_unsent_failure h hs]
    exact ⟨attemptCount_single_self k false, by simp [regGet_regSet_self]⟩
  | thrown =>
    rw [sendReminder_unsent_thrown h hs]
    exact ⟨attemptCount_single_self k false, by simp [h]⟩

theorem two_events_one_attempt (m now : Int) (entries : List TimetableEntry) (st : Registry)
    (k : String) (r : ScheduledReminder) (o : SendOutcome)
    (oracle : TimetableEntry → SendOutcome)
    (h : regGet st k = some r) (hs : r.sent = false) :
    attemptCount (runEvents m now entries st
        [SchedEvent.timerFire k o, SchedEvent.sweepTickEv oracle]).2 k = 1 ∧
      attemptCount (runEvents m now entries st
        [SchedEvent.sweepTickEv oracle, SchedEvent.timerFire k o]).2 k = 1 := by
  constructor
  · rw [runEvents_cons, runEvents_cons, runEvents_nil]
    simp only [stepEvent]
    rw [attemptCount_append, attemptCount_append, attemptCount_nil]
    obtain ⟨ha1, hsome1⟩ := attempt_timer_any st k r o h hs
    obtain ⟨_, ha2, _⟩ := sweepTick_present m now oracle entries (sendReminder st k o).1 k hsome1
    omega
  · rw [runEvents_cons, runEvents_cons, runEvents_nil]
    simp only [stepEvent]
    rw [attemptCount_append, attemptCount_append, attemptCount_nil]
    have hsome0 : (regGet st k).isSome = true := by simp [h]
    obtain ⟨hg1, ha1, _⟩ := sweepTick_present m now oracle entries st k hsome0
    have h2 : regGet (sweepTick m now oracle entries st).1 k = some r := by rw [hg1, h]
    obtain ⟨ha2, _⟩ := attempt_timer_any (sweepTick m now oracle entries st).1 k r o h2 hs
    omega

/-! ## Concrete sample values used by counterexamples and witnesses -/

/-- A concrete entry: fingerprint s-a, fire instant 100 with lead 15. -/
def sampleEntry : TimetableEntry :=
  { timeSlot := "s", activity := "a", startTime := 115, endTime := 140 }

/-- The registry after registering sampleEntry at now = 100, lead 15. -/
def sampleReg : Registry := scheduleReminder 15 100 [] sampleEntry

/-- The record sampleReg holds for sampleEntry. -/
def sampleRecord : ScheduledReminder := scheduledRecord sampleEntry 100

/-! ## The claims -/

/-- A second entry colliding with sampleEntry: same time slot and
activity (hence the same fingerprint s-a) but a later start, as a
duplicated or re-listed timetable row produces. -/
def colEntry2 : TimetableEntry :=
  { timeSlot := "s", activity := "a", startTime := 120, endTime := 150 }

/-- The registry after registering sampleEntry and then colEntry2 at
now = 100 with lead 15: the second registration overwrites the first
record, whose running timer leaks. -/
def colReg : Registry := scheduleAll 15 100 [] [sampleEntry, colEntry2]

/-- A colliding registration overwrites: the old record is detached
unchanged (its running task is not stopped) while the fingerprint now
maps to the fresh record. -/
theorem scheduleReminder_overwrite_leaks (m now : Int) (st : Registry) (e : TimetableEntry)
    (r : ScheduledReminder) (hfire : now ≤ e.startTime - m)
    (hr : regGet st (generateReminderId e) = some r) :
    overwrittenRecord m now st e = some r ∧
    regGet (scheduleReminder m now st e) (generateReminderId e) =
      some (scheduledRecord e (e.startTime - m)) := by
  have hnp : ¬(e.startTime - m < now) := by omega
  constructor
  · simp [overwrittenRecord, hnp, hr]
  · simp [scheduleReminder, hnp, regGet_regSet_self]

/-- Claim C1 counterexample: two of today's entries share the fingerprint
s-a, so registering both detaches the first record while its cron task
keeps running; in the valid sequence where the leaked task fires and then
the current registry record's task fires, each activation sees its own
sent = false record and the transport succeeds twice — two successful
sends for one fingerprint. -/
theorem claim_C1_counterexample :
    generateReminderId sampleEntry = generateReminderId colEntry2 ∧
    sampleEntry ≠ colEntry2 ∧
    overwrittenRecord 15 100 (scheduleReminder 15 100 [] sampleEntry) colEntry2 =
      some sampleRecord ∧
    taskLive sampleRecord.task = true ∧
    validEvents 15 100 [sampleEntry, colEntry2] colReg
      [SchedEvent.leakedFire sampleRecord SendOutcome.success,
       SchedEvent.timerFire "s-a" SendOutcome.success] ∧
    succCount (runEvents 15 100 [sampleEntry, colEntry2] colReg
        [SchedEvent.leakedFire sampleRecord SendOutcome.success,
         SchedEvent.timerFire "s-a" SendOutcome.success]).2 "s-a" = 2 := by
  refine ⟨by decide, by decide, by decide, by decide, ⟨by decide, by decide, trivial⟩,
    by decide⟩

/-- Claim C1 (amended): the registry-mediated paths (the current record's
timer and the sweep) make at most one successful send per fingerprint,
but each leaked activation — the still-running task of a record detached
by a colliding Map.set overwrite — can add one more: over any event
sequence the successful sends for a fingerprint number at most one plus
the leaked activations for it.  In particular, when the sequence has no
leaked activation for the fingerprint (as when no two of today's entries
collide, so no overwrite ever leaks a timer), at most one successful
send occurs; and running the registry record's timer activation and a
sweep tick for the same registered fingerprint, in either order, makes
exactly one transport call. -/
theorem claim_C1_amended (m now : Int) (entries : List TimetableEntry) (k : String)
    (st : Registry) (evs : List SchedEvent) :
    succCount (runEvents m now entries st evs).2 k ≤ 1 + leakedCount k evs ∧
    (leakedCount k evs = 0 → succCount (runEvents m now entries st evs).2 k ≤ 1) ∧
    (∀ (e : TimetableEntry) (o : SendOutcome) (oracle : TimetableEntry → SendOutcome),
      k = generateReminderId e → now ≤ e.startTime - m →
      attemptCount (runEvents m now entries (scheduleReminder m now [] e)
          [SchedEvent.timerFire k o, SchedEvent.sweepTickEv oracle]).2 k = 1 ∧
      attemptCount (runEvents m now entries (scheduleReminder m now [] e)
          [SchedEvent.sweepTickEv oracle, SchedEvent.timerFire k o]).2 k = 1) := by
  have hi := runEvents_inv m now entries k evs st
  have hb : (if isSentReg st k then 0 else 1) ≤ 1 := by split <;> omega
  refine ⟨by omega, fun hz => by omega, ?_⟩
  intro e o oracle hk hfire
  subst hk
  have hnp : ¬(e.startTime - m < now) := by omega
  have hst0 : scheduleReminder m now [] e =
      regSet [] (generateReminderId e) (scheduledRecord e (e.startTime - m)) := by
    simp [scheduleReminder, hnp]
  have hget0 : regGet (scheduleReminder m now [] e) (generateReminderId e) =
      some (scheduledRecord e (e.startTime - m)) := by
    rw [hst0]; exact regGet_regSet_self [] _ _
  exact two_events_one_attempt m now entries (scheduleReminder m now [] e)
    (generateReminderId e) (scheduledRecord e (e.startTime - m)) o oracle hget0 rfl

/-- Claim C1 witness: the registered sampleEntry, one timer activation and
one sweep tick, in both orders, at concrete inputs. -/
theorem claim_C1_amended_witness :
    attemptCount (runEvents 15 100 [sampleEntry] (scheduleReminder 15 100 [] sampleEntry)
        [SchedEvent.timerFire "s-a" SendOutcome.success,
         SchedEvent.sweepTickEv (fun _ => SendOutcome.success)]).2 "s-a" = 1 ∧
    attemptCount (runEvents 15 100 [sampleEntry] (scheduleReminder 15 100 [] sampleEntry)
        [SchedEvent.sweepTickEv (fun _ => SendOutcome.success),
         SchedEvent.timerFire "s-a" SendOutcome.failure]).2 "s-a" = 1 :=
  ⟨((claim_C1_amended 15 100 [sampleEntry] "s-a" [] []).2.2 sampleEntry SendOutcome.success
      (fun _ => SendOutcome.success) (by decide) (by decide)).1,
   ((claim_C1_amended 15 100 [sampleEntry] "s-a" [] []).2.2 sampleEntry SendOutcome.failure
      (fun _ => SendOutcome.success) (by decide) (by decide)).2⟩

/-- Claim C3 counterexample: a timer activation of the registered, unsent
sampleEntry reminder whose transport returns failure leaves the sent flag
false, refuting that sent becomes true regardless of transport outcome. -/
theorem claim_C3_counterexample :
    (regGet sampleReg "s-a").isSome = true ∧
    isSentReg sampleReg "s-a" = false ∧
    isSentReg (sendReminder sampleReg "s-a" SendOutcome.failure).1 "s-a" = false := by
  decide

/-- Claim C3 (amended): after a timer activation of a registered,
not-yet-sent reminder, the sent flag is true exactly when the transport
returned success; the timer handle is stopped whenever the transport call
returned (success or failure); a thrown transport error is caught before
the task is stopped, leaving the record unchanged. -/
theorem claim_C3_amended (st : Registry) (k : String) (r : ScheduledReminder)
    (h : regGet st k = some r) (hs : r.sent = false) :
    (regGet (sendReminder st k SendOutcome.success).1 k =
        some { r with sent := true, task := stopTask r.task } ∧
      isSentReg (sendReminder st k SendOutcome.success).1 k = true ∧
      timerEnabled (sendReminder st k SendOutcome.success).1 k = false) ∧
    (regGet (sendReminder st k SendOutcome.failure).1 k =
        some { r with task := stopTask r.task } ∧
      isSentReg (sendReminder st k SendOutcome.failure).1 k = false ∧
      timerEnabled (sendReminder st k SendOutcome.failure).1 k = false) ∧
    sendReminder st k SendOutcome.thrown = (st, [(k, false)]) := by
  have hsu := sendReminder_unsent_success h hs
  have hfa := sendReminder_unsent_failure h hs
  have hth := sendReminder_unsent_thrown h hs
  refine ⟨⟨?_, ?_, ?_⟩, ⟨?_, ?_, ?_⟩, hth⟩
  · simp only [hsu]
    exact regGet_regSet_self st k _
  · simp only [hsu]
    rw [isSentReg_regSet_self]
  · simp only [hsu]
    simp [timerEnabled, regGet_regSet_self, taskLive_stopTask]
  · simp only [hfa]
    exact regGet_regSet_self st k _
  · simp only [hfa]
    rw [isSentReg_regSet_self]
    exact hs
  · simp only [hfa]
    simp [timerEnabled, regGet_regSet_self, taskLive_stopTask]

/-- Claim C3 witness: the amended statement evaluated on the sampleEntry
registry. -/
theorem claim_C3_amended_witness :
    isSentReg (sendReminder sampleReg "s-a" SendOutcome.success).1 "s-a" = true ∧
    isSentReg (sendReminder sampleReg "s-a" SendOutcome.failure).1 "s-a" = false ∧
    timerEnabled (sendReminder sampleReg "s-a" SendOutcome.failure).1 "s-a" = false :=
  have hc := claim_C3_amended sampleReg "s-a" sampleRecord (by decide) (by decide)
  ⟨hc.1.2.1, hc.2.1.2.1, hc.2.1.2.2⟩

/-- Claim C4 counterexample: from the state after the current registry
record's failed activation (sent = false, timer stopped), the leaked
still-running timer of the overwritten colliding registration validly
fires and makes another transport call — here a successful one — for the
same fingerprint before any rollover, refuting that a once-failed primary
send is never attempted again that day. -/
theorem claim_C4_counterexample :
    isSentReg (sendReminder colReg "s-a" SendOutcome.failure).1 "s-a" = false ∧
    timerEnabled (sendReminder colReg "s-a" SendOutcome.failure).1 "s-a" = false ∧
    overwrittenRecord 15 100 (scheduleReminder 15 100 [] sampleEntry) colEntry2 =
      some sampleRecord ∧
    validEvents 15 100 [sampleEntry, colEntry2]
      (sendReminder colReg "s-a" SendOutcome.failure).1
      [SchedEvent.leakedFire sampleRecord SendOutcome.success] ∧
    attemptCount (runEvents 15 100 [sampleEntry, colEntry2]
        (sendReminder colReg "s-a" SendOutcome.failure).1
        [SchedEvent.leakedFire sampleRecord SendOutcome.success]).2 "s-a" = 1 ∧
    succCount (runEvents 15 100 [sampleEntry, colEntry2]
        (sendReminder colReg "s-a" SendOutcome.failure).1
        [SchedEvent.leakedFire sampleRecord SendOutcome.success]).2 "s-a" = 1 := by
  refine ⟨by decide, by decide, by decide, ⟨by decide, trivial⟩, by decide, by decide⟩

/-- Claim C4 (amended): after a timer activation whose transport returned
failure, the record keeps sent = false with its timer stopped, and the
registry-consulting paths never touch the fingerprint again before
rollover — the sweep guard skips fingerprints holding an unsent record
and the stopped timer cannot fire — so any further transport calls for
it come only from leaked activations (still-running timers of records
detached by colliding overwrites), at most one per leaked activation; in
particular, with no leaked activation for the fingerprint the failed
send is never retried that day. -/
theorem claim_C4_amended (m now : Int) (entries : List TimetableEntry) (st : Registry)
    (k : String) (r : ScheduledReminder) (h : regGet st k = some r) (hs : r.sent = false) :
    regGet (sendReminder st k SendOutcome.failure).1 k =
        some { r with task := stopTask r.task } ∧
    isSentReg (sendReminder st k SendOutcome.failure).1 k = false ∧
    timerEnabled (sendReminder st k SendOutcome.failure).1 k = false ∧
    (∀ evs, validEvents m now entries (sendReminder st k SendOutcome.failure).1 evs →
      attemptCount (runEvents m now entries (sendReminder st k SendOutcome.failure).1 evs).2 k
        ≤ leakedCount k evs ∧
      (leakedCount k evs = 0 →
        attemptCount
          (runEvents m now entries (sendReminder st k SendOutcome.failure).1 evs).2 k = 0)) := by
  have hfa := sendReminder_unsent_failure h hs
  have hget : regGet (sendReminder st k SendOutcome.failure).1 k =
      some { r with task := stopTask r.task } := by
    simp only [hfa]
    exact regGet_regSet_self st k _
  have hsent : isSentReg (sendReminder st k SendOutcome.failure).1 k = false := by
    rw [isSentReg_of_some hget]
    exact hs
  have htimer : timerEnabled (sendReminder st k SendOutcome.failure).1 k = false := by
    unfold timerEnabled
    rw [hget]
    exact taskLive_stopTask r.task
  refine ⟨hget, hsent, htimer, ?_⟩
  intro evs hv
  have hrun := (runEvents_blocked m now entries k evs _ (by simp [hget]) htimer hv).1
  exact ⟨hrun, fun hz => by omega⟩

/-- Claim C4 witness: after the failed activation of sampleEntry's
reminder (no colliding registration, so no leaked timer), a sweep tick
with the entry still in its look-ahead window makes no transport call
for the fingerprint. -/
theorem claim_C4_amended_witness :
    attemptCount (runEvents 15 100 [sampleEntry]
        (sendReminder sampleReg "s-a" SendOutcome.failure).1
        [SchedEvent.sweepTickEv (fun _ => SendOutcome.success)]).2 "s-a" = 0 :=
  ((claim_C4_amended 15 100 [sampleEntry] sampleReg "s-a" sampleRecord
      (by decide) (by decide)).2.2.2
    [SchedEvent.sweepTickEv (fun _ => SendOutcome.success)] ⟨trivial, trivial⟩).2 rfl

/-- Claim C6: an entry whose fire instant is strictly before now at
registration is skipped (registry, hence its count, unchanged; no record,
no timer); otherwise a sent=false record with a running timer bound to
the fire instant is inserted. -/
theorem claim_C6 (m now : Int) (st : Registry) (e : TimetableEntry) :
    (e.startTime - m < now →
      scheduleReminder m now st e = st ∧
        regCount (scheduleReminder m now st e) = regCount st) ∧
    (now ≤ e.startTime - m →
      scheduleReminder m now st e =
        regSet st (generateReminderId e) (scheduledRecord e (e.startTime - m)) ∧
      regGet (scheduleReminder m now st e) (generateReminderId e) =
        some (scheduledRecord e (e.startTime - m)) ∧
      (scheduledRecord e (e.startTime - m)).sent = false ∧
      (scheduledRecord e (e.startTime - m)).task =
        some { active := true, fireAt := e.startTime - m }) := by
  constructor
  · intro hpast
    have heq : scheduleReminder m now st e = st := by simp [scheduleReminder, hpast]
    exact ⟨heq, by rw [heq]⟩
  · intro hle
    have hnp : ¬(e.startTime - m < now) := by omega
    have heq : scheduleReminder m now st e =
        regSet st (generateReminderId e) (scheduledRecord e (e.startTime - m)) := by
      simp [scheduleReminder, hnp]
    refine ⟨heq, ?_, rfl, rfl⟩
    rw [heq]
    exact regGet_regSet_self st _ _

/-- Claim C6 witness: a past-due entry is skipped with the count
unchanged; sampleEntry is registered with an unsent record. -/
theorem claim_C6_witness :
    scheduleReminder 15 100 []
        { timeSlot := "s", activity := "a", startTime := 110, endTime := 140 } = [] ∧
    regGet (scheduleReminder 15 100 [] sampleEntry) "s-a" = some (scheduledRecord sampleEntry 100) :=
  ⟨((claim_C6 15 100 []
      { timeSlot := "s", activity := "a", startTime := 110, endTime := 140 }).1 (by decide)).1,
   (((claim_C6 15 100 [] sampleEntry).2 (by decide)).2.1)⟩

/-- Claim C10: the sweep send path mutates the registry only on transport
success: a returned failure or thrown error leaves it byte-identical and
a synthetic sent = true record is inserted only on success; hence a
still-unregistered, in-window, due entry gets a fresh attempt on every
subsequent tick after a failed one. -/
theorem claim_C10 (m now : Int) (st : Registry) (e : TimetableEntry) (o : SendOutcome) :
    (o ≠ SendOutcome.success → (sendImmediateReminder st now e o).1 = st) ∧
    (isSentReg st (generateReminderId e) = false → o = SendOutcome.success →
      (sendImmediateReminder st now e o).1 =
        regSet st (generateReminderId e) (immediateRecord (generateReminderId e) e now) ∧
      (immediateRecord (generateReminderId e) e now).sent = true) ∧
    (regGet st (generateReminderId e) = none → now ≤ e.startTime →
      e.startTime ≤ now + m → o ≠ SendOutcome.success →
      sweepTick m now (fun _ => o) [e] st = (st, [(generateReminderId e, false)])) := by
  refine ⟨?_, ?_, ?_⟩
  · intro ho
    cases hb : isSentReg st (generateReminderId e) with
    | true => rw [sendImmediateReminder_of_sent now o hb]
    | false =>
      cases o with
      | success => exact absurd rfl ho
      | failure => rw [sendImmediateReminder_unsent_failure now hb]
      | thrown => rw [sendImmediateReminder_unsent_thrown now hb]
  · intro hb ho
    subst ho
    rw [sendImmediateReminder_unsent_success now hb]
    exact ⟨rfl, rfl⟩
  · intro hnone h1 h2 ho
    have hdue : e.startTime - m ≤ now := by omega
    have hb : isSentReg st (generateReminderId e) = false := isSentReg_of_none hnone
    rw [sweepTick_single m now (fun _ => o) e st h1 h2]
    cases o with
    | success => exact absurd rfl ho
    | failure =>
      simp [sweepEntryStep, hnone, hdue, sendImmediateReminder_unsent_failure now hb]
    | thrown =>
      simp [sweepEntryStep, hnone, hdue, sendImmediateReminder_unsent_thrown now hb]

/-- Claim C10 witness: a failed sweep send for an unregistered due entry
leaves the registry empty and logs exactly one failed attempt. -/
theorem claim_C10_witness :
    sweepTick 15 100 (fun _ => SendOutcome.failure)
        [{ timeSlot := "s", activity := "a", startTime := 110, endTime := 140 }] [] =
      ([], [("s-a", false)]) :=
  (claim_C10 15 100 []
      { timeSlot := "s", activity := "a", startTime := 110, endTime := 140 }
      SendOutcome.failure).2.2 (by decide) (by decide) (by decide) (by decide)

/-- Claim C2 counterexample: sampleEntry is in the look-ahead window, its
registry fingerprint is not shown as sent (the record exists with
sent = false) and its fire instant is at now, yet the sweep tick makes no
transport call and marks nothing sent: the guard skips fingerprints
holding an unsent record. -/
theorem claim_C2_counterexample :
    sampleEntry ∈ upcomingEntries 15 100 [sampleEntry] ∧
    isSentReg sampleReg (generateReminderId sampleEntry) = false ∧
    sampleEntry.startTime - 15 ≤ 100 ∧
    sweepTick 15 100 (fun _ => SendOutcome.success) [sampleEntry] sampleReg =
      (sampleReg, []) := by
  decide

/-- Claim C2 (amended): for an entry in the look-ahead window the sweep
makes a transport call if and only if the registry holds no record at all
for its fingerprint (an unsent record — pending or failed-primary —
blocks the sweep even though isSent is false; for a window entry the
fire instant is automatically at or before now); it marks sent only on
transport success; and an entry skipped as past-due at registration,
hence unregistered, is sent by the sweep. -/
theorem claim_C2_amended (m now : Int) (st : Registry) (e : TimetableEntry) (o : SendOutcome)
    (h1 : now ≤ e.startTime) (h2 : e.startTime ≤ now + m) :
    (attemptCount (sweepTick m now (fun _ => o) [e] st).2 (generateReminderId e) = 1 ↔
      regGet st (generateReminderId e) = none) ∧
    (regGet st (generateReminderId e) = none →
      (o = SendOutcome.success →
        regGet (sweepTick m now (fun _ => o) [e] st).1 (generateReminderId e) =
          some (immediateRecord (generateReminderId e) e now) ∧
        isSentReg (sweepTick m now (fun _ => o) [e] st).1 (generateReminderId e) = true) ∧
      (o ≠ SendOutcome.success → (sweepTick m now (fun _ => o) [e] st).1 = st)) ∧
    (e.startTime - m ≤ now) ∧
    (e.startTime - m < now → scheduleReminder m now st e = st) := by
  have hdue : e.startTime - m ≤ now := by omega
  rw [sweepTick_single m now (fun _ => o) e st h1 h2]
  cases hr : regGet st (generateReminderId e) with
  | some r =>
    cases hs : r.sent with
    | false =>
      have hstep : sweepEntryStep m now (fun _ => o) (st, []) e = (st, []) :=
        sweepEntryStep_blocked m now (fun _ => o) (st, []) e r hr hs
      rw [hstep]
      refine ⟨?_, ?_, hdue, fun hpast => by simp [scheduleReminder, hpast]⟩
      · constructor
        · intro ha
          simp [attemptCount_nil] at ha
        · intro hn
          cases hn
      · intro hn
        cases hn
    | true =>
      have hsent : isSentReg st (generateReminderId e) = true := by
        rw [isSentReg_of_some hr, hs]
      have hstep : sweepEntryStep m now (fun _ => o) (st, []) e = (st, []) := by
        simp [sweepEntryStep, hr, hs, hdue, sendImmediateReminder_of_sent now o hsent]
      rw [hstep]
      refine ⟨?_, ?_, hdue, fun hpast => by simp [scheduleReminder, hpast]⟩
      · constructor
        · intro ha
          simp [attemptCount_nil] at ha
        · intro hn
          cases hn
      · intro hn
        cases hn
  | none =>
    have hb := isSentReg_of_none hr
    cases o with
    | success =>
      have hstep : sweepEntryStep m now (fun _ => SendOutcome.success) (st, []) e =
          (regSet st (generateReminderId e)
            (immediateRecord (generateReminderId e) e now),
            [] ++ [(generateReminderId e, true)]) := by
        simp [sweepEntryStep, hr, hdue, sendImmediateReminder_unsent_success now hb]
      rw [hstep]
      refine ⟨?_, ?_, hdue, fun hpast => by simp [scheduleReminder, hpast]⟩
      · constructor
        · intro _
          rfl
        · intro _
          simp [attemptCount_single_self]
      · intro _
        refine ⟨fun _ => ⟨?_, ?_⟩, fun hno => absurd rfl hno⟩
        · exact regGet_regSet_self st _ _
        · rw [isSentReg_regSet_self]
          rfl
    | failure =>
      have hstep : sweepEntryStep m now (fun _ => SendOutcome.failure) (st, []) e =
          (st, [] ++ [(generateReminderId e, false)]) := by
        simp [sweepEntryStep, hr, hdue, sendImmediateReminder_unsent_failure now hb]
      rw [hstep]
      refine ⟨?_, ?_, hdue, fun hpast => by simp [scheduleReminder, hpast]⟩
      · constructor
        · intro _
          rfl
        · intro _
          simp [attemptCount_single_self]
      · intro _
        refine ⟨fun hyes => ?_, fun _ => rfl⟩
        cases hyes
    | thrown =>
      have hstep : sweepEntryStep m now (fun _ => SendOutcome.thrown) (st, []) e =
          (st, [] ++ [(generateReminderId e, false)]) := by
        simp [sweepEntryStep, hr, hdue, sendImmediateReminder_unsent_thrown now hb]
      rw [hstep]
      refine ⟨?_, ?_, hdue, fun hpast => by simp [scheduleReminder, hpast]⟩
      · constructor
        · intro _
          rfl
        · intro _
          simp [attemptCount_single_self]
      · intro _
        refine ⟨fun hyes => ?_, fun _ => rfl⟩
        cases hyes

/-- Claim C2 witness: the past-due-skipped entry (start 110, now 100,
lead 15) is unregistered and sent by the sweep on transport success. -/
theorem claim_C2_amended_witness :
    isSentReg (sweepTick 15 100 (fun _ => SendOutcome.success)
        [{ timeSlot := "s", activity := "a", startTime := 110, endTime := 140 }] []).1
      (generateReminderId
        { timeSlot := "s", activity := "a", startTime := 110, endTime := 140 }) = true :=
  (((claim_C2_amended 15 100 []
      { timeSlot := "s", activity := "a", startTime := 110, endTime := 140 }
      SendOutcome.success (by decide) (by decide)).2.1 (by decide)).1 rfl).2

/-- Entry whose twenty-first character is pushed out of the fingerprint
window by an inserted space. -/
def wsEntry1 : TimetableEntry :=
  { timeSlot := "s", activity := "aaaaaaaaaaaaaaaaaaabc", startTime := 0, endTime := 0 }

/-- wsEntry1 with one space inserted before the twentieth character. -/
def wsEntry2 : TimetableEntry :=
  { timeSlot := "s", activity := "aaaaaaaaaaaaaaaaaaa bc", startTime := 0, endTime := 0 }

/-- Claim C5 counterexample: two entries with identical labels whose
descriptions differ only in whitespace (identical after deleting all
whitespace) get different fingerprints, because substring(0, 20) is taken
before the whitespace is stripped. -/
theorem claim_C5_counterexample :
    wsEntry1.timeSlot = wsEntry2.timeSlot ∧
    stripSpaces wsEntry1.activity.data = stripSpaces wsEntry2.activity.data ∧
    generateReminderId wsEntry1 ≠ generateReminderId wsEntry2 := by
  decide

/-- Claim C5 (amended): the fingerprint is determined by the label and the
normalized first twenty characters of the description: identical label
and description give identical fingerprints; case-only changes never
change the fingerprint; and with a fixed label the fingerprint changes
exactly when the whitespace-stripped, lowercased twenty-character prefix
changes — so whitespace edits inside the prefix window can change it,
while edits at or beyond position twenty cannot. -/
theorem claim_C5_amended (e1 e2 : TimetableEntry) (h : e1.timeSlot = e2.timeSlot) :
    (e1.activity = e2.activity → generateReminderId e1 = generateReminderId e2) ∧
    (jsLowerChars e1.activity.data = jsLowerChars e2.activity.data →
      generateReminderId e1 = generateReminderId e2) ∧
    (generateReminderId e1 = generateReminderId e2 ↔
      normChars (e1.activity.data.take 20) = normChars (e2.activity.data.take 20)) := by
  refine ⟨?_, ?_, generateReminderId_eq_iff e1 e2 h⟩
  · intro ha
    unfold generateReminderId
    rw [h, ha]
  · intro ha
    exact (generateReminderId_eq_iff e1 e2 h).mpr (normChars_take_congr ha)

/-- Claim C5 witness: a case-only change of the description leaves the
fingerprint unchanged on a concrete pair. -/
theorem claim_C5_amended_witness :
    generateReminderId
        { timeSlot := "5:00 AM to 5:30 AM", activity := "Morning Walk",
          startTime := 300, endTime := 330 } =
      generateReminderId
        { timeSlot := "5:00 AM to 5:30 AM", activity := "MORNING walk",
          startTime := 300, endTime := 330 } :=
  (claim_C5_amended
      { timeSlot := "5:00 AM to 5:30 AM", activity := "Morning Walk",
        startTime := 300, endTime := 330 }
      { timeSlot := "5:00 AM to 5:30 AM", activity := "MORNING walk",
        startTime := 300, endTime := 330 }
      rfl).2.1 (by decide)

/-- Claim C7: a rollover rebuilds the registry from the new day's entries
alone: the result is exactly what scheduling the new entries into an
empty registry yields (each fingerprint maps to the record of its last
non-past-due entry, and nothing else), every dropped prior record has its
timer stopped, and a prior-day sent fingerprint cannot block a new-day
entry: the fresh record is inserted with sent = false regardless of the
prior registry. -/
theorem claim_C7 (m now : Int) (st : Registry) (es : List TimetableEntry) :
    (loadTodaySchedule m now st es).1 = scheduleAll m now [] es ∧
    (∀ k, regGet (loadTodaySchedule m now st es).1 k =
      (match lastQual m now k es with
       | some e => some (scheduledRecord e (e.startTime - m))
       | none => none)) ∧
    (∀ p ∈ (loadTodaySchedule m now st es).2, taskLive p.2.task = false) ∧
    (∀ k e, lastQual m now k es = some e →
      regGet (loadTodaySchedule m now st es).1 k =
        some (scheduledRecord e (e.startTime - m)) ∧
      (scheduledRecord e (e.startTime - m)).sent = false) := by
  have h2 : ∀ k, regGet (loadTodaySchedule m now st es).1 k =
      (match lastQual m now k es with
       | some e => some (scheduledRecord e (e.startTime - m))
       | none => none) := by
    intro k
    have h1 : (loadTodaySchedule m now st es).1 = scheduleAll m now [] es := rfl
    rw [h1, regGet_scheduleAll m now k es []]
    cases hq : lastQual m now k es <;> rfl
  refine ⟨rfl, h2, ?_, ?_⟩
  · intro p hp
    have hp2 : p ∈ stopAllRecords st := hp
    rw [stopAllRecords, List.mem_map] at hp2
    obtain ⟨q, _, rfl⟩ := hp2
    exact taskLive_stopTask q.2.task
  · intro k e hq
    have := h2 k
    rw [hq] at this
    exact ⟨this, rfl⟩

/-- Claim C7 witness: rolling over a registry that holds a sent record
for the fingerprint still registers the new day's identically-labeled
entry with a fresh unsent record. -/
theorem claim_C7_witness :
    regGet (loadTodaySchedule 15 100
        [("s-a", immediateRecord "s-a" sampleEntry 50)] [sampleEntry]).1 "s-a" =
      some (scheduledRecord sampleEntry 100) ∧
    (scheduledRecord sampleEntry 100).sent = false :=
  (claim_C7 15 100 [("s-a", immediateRecord "s-a" sampleEntry 50)] [sampleEntry]).2.2.2
    "s-a" sampleEntry (by decide)

/-- Entry whose timer creation is made to throw in the C8 counterexample. -/
def failEntry : TimetableEntry :=
  { timeSlot := "s1", activity := "a1", startTime := 100, endTime := 130 }

/-- Entry after the failing one in the C8 counterexample. -/
def okEntry : TimetableEntry :=
  { timeSlot := "s2", activity := "a2", startTime := 200, endTime := 230 }

/-- Claim C8 counterexample: both entries are schedulable (not past-due)
at now = 0, timer creation throws for the first one only, yet the second
entry is never registered: the try/catch sits around the whole loop in
loadTodaySchedule, so one throw aborts the remaining entries. -/
theorem claim_C8_counterexample :
    (0 : Int) ≤ failEntry.startTime - 15 ∧
    (0 : Int) ≤ okEntry.startTime - 15 ∧
    scheduleAllT 15 0 (fun e => e.timeSlot == "s2") [] [failEntry, okEntry] = ([], true) ∧
    regGet (scheduleAllT 15 0 (fun e => e.timeSlot == "s2") [] [failEntry, okEntry]).1
      (generateReminderId okEntry) = none := by
  decide

/-- Claim C8 (amended): a timer-creation throw for one entry is caught,
but at the level of the whole schedule load, not per entry: entries
before the failing one stay registered exactly as in a failure-free run,
and the entries after it are not processed at all. -/
theorem claim_C8_amended (m now : Int) (timerOk : TimetableEntry → Bool) (st : Registry)
    (pre post : List TimetableEntry) (e : TimetableEntry)
    (hpre : ∀ e' ∈ pre, e'.startTime - m < now ∨ timerOk e' = true)
    (hfire : now ≤ e.startTime - m) (hfail : timerOk e = false) :
    scheduleAllT m now timerOk st (pre ++ e :: post) = (scheduleAll m now st pre, true) :=
  scheduleAllT_abort m now timerOk e post hfire hfail pre st hpre

/-- Claim C8 witness: with okEntry before the throwing failEntry and
another okEntry after it, only the prefix is scheduled and the throw is
recorded. -/
theorem claim_C8_amended_witness :
    scheduleAllT 15 0 (fun e => e.timeSlot == "s2") [] ([okEntry] ++ failEntry :: [okEntry]) =
      (scheduleAll 15 0 [] [okEntry], true) :=
  claim_C8_amended 15 0 (fun e => e.timeSlot == "s2") [] [okEntry] [okEntry] failEntry
    (by decide) (by decide) (by decide)

/-- Claim C9: the message formatter is a pure function of the entry and
the configuration: equal inputs give byte-identical output; and with no
template configured, the default layout contains the activity text, the
configured lead minutes, and the time-slot label as substrings. -/
theorem claim_C9 (cfg1 cfg2 : ReminderConfig) (e1 e2 : TimetableEntry)
    (hc : cfg1 = cfg2) (he : e1 = e2) :
    formatReminderMessage cfg1 e1 = formatReminderMessage cfg2 e2 ∧
    (cfg1.message = none →
      e1.activity.data <:+: (formatReminderMessage cfg1 e1).data ∧
      (toString cfg1.minutesBefore).data <:+: (formatReminderMessage cfg1 e1).data ∧
      e1.timeSlot.data <:+: (formatReminderMessage cfg1 e1).data) := by
  subst hc
  subst he
  refine ⟨rfl, ?_⟩
  intro hm
  have hfmt : formatReminderMessage cfg1 e1 = defaultReminderMessage cfg1.minutesBefore e1 := by
    unfold formatReminderMessage
    rw [hm]
  rw [hfmt]
  unfold defaultReminderMessage
  refine ⟨⟨dm1.data,
      (dm2 ++ toString cfg1.minutesBefore ++ dm3 ++ formatTime12h e1.startTime ++ dm4 ++
        e1.timeSlot ++ dm5 ++ e1.activity ++ dm6).data, ?_⟩,
    ⟨(dm1 ++ e1.activity ++ dm2).data,
      (dm3 ++ formatTime12h e1.startTime ++ dm4 ++ e1.timeSlot ++ dm5 ++ e1.activity ++
        dm6).data, ?_⟩,
    ⟨(dm1 ++ e1.activity ++ dm2 ++ toString cfg1.minutesBefore ++ dm3 ++
        formatTime12h e1.startTime ++ dm4).data,
      (dm5 ++ e1.activity ++ dm6).data, ?_⟩⟩ <;>
    simp [String.data_append, List.append_assoc]

/-- Claim C9 witness: the default layout for sampleEntry with lead 15. -/
theorem claim_C9_witness :
    sampleEntry.activity.data <:+:
        (formatReminderMessage { minutesBefore := 15, message := none } sampleEntry).data ∧
      (toString (15 : Int)).data <:+:
        (formatReminderMessage { minutesBefore := 15, message := none } sampleEntry).data ∧
      sampleEntry.timeSlot.data <:+:
        (formatReminderMessage { minutesBefore := 15, message := none } sampleEntry).data :=
  (claim_C9 { minutesBefore := 15, message := none } { minutesBefore := 15, message := none }
    sampleEntry sampleEntry rfl rfl).2 rfl
